import Mathlib

/-!
Verification development for the BC4 signal-generation pipeline.

The Python sources under src/backend/src are shallowly embedded over ℚ:
pandas Series become Lean lists, float NaN becomes `Option` (`none`), and
each embedded definition mirrors one Python function.  Timestamps are
epoch seconds (ℤ).  Python `sorted`/`sort_values` are embedded as a stable
insertion sort (`sortOrd`), Python dicts with a fixed key set become
structures whose `Option` fields model absent keys, and Python `int(x)`
truncation becomes `truncQ`.
-/

namespace BC4

/-- pandas `Series.clip(lower=lo, upper=hi)`, elementwise form. -/
def clipQ (lo hi x : ℚ) : ℚ := min hi (max lo x)

/-- Python `int(x)` : truncation toward zero. -/
def truncQ (q : ℚ) : ℤ := if 0 ≤ q then ⌊q⌋ else -⌊-q⌋

/-- Round half to even at the integers (Python `round` tie behaviour). -/
def roundHalfEven (q : ℚ) : ℤ :=
  let n := ⌊q⌋
  let f := q - n
  if f < 1 / 2 then n
  else if 1 / 2 < f then n + 1
  else if n % 2 = 0 then n else n + 1

/-- Python `round(x, 2)`. -/
def round2 (q : ℚ) : ℚ := (roundHalfEven (q * 100) : ℚ) / 100

/-- The `1e-8` guard used in several relative-distance denominators. -/
def eps8 : ℚ := 1 / 100000000

/-- `numpy.isclose(a, b)` with the default `rtol=1e-5`, `atol=1e-8`. -/
def iscloseQ (a b : ℚ) : Bool := |a - b| ≤ 1 / 100000000 + (1 / 100000) * |b|

/-- Mean of a pandas Series; every embedded call site guards non-emptiness. -/
def listMean (xs : List ℚ) : ℚ := xs.sum / xs.length

/-- Series `.max()` over a list, `none` on the empty list. -/
def seriesMax : List ℚ → Option ℚ
  | [] => none
  | x :: xs => some (xs.foldl max x)

/-- Series `.min()` over a list, `none` on the empty list. -/
def seriesMin : List ℚ → Option ℚ
  | [] => none
  | x :: xs => some (xs.foldl min x)

/-- `xs.iloc[-n:]` : the last `n` elements. -/
def lastN {α : Type} (n : ℕ) (xs : List α) : List α := xs.drop (xs.length - n)

/-- Inclusive running sums (pandas `cumsum`). -/
def scanSumAux (acc : ℚ) : List ℚ → List ℚ
  | [] => []
  | x :: xs => (acc + x) :: scanSumAux (acc + x) xs

def scanSum (xs : List ℚ) : List ℚ := scanSumAux 0 xs

/-- Insert `x` behind every element that strictly precedes it (`bf y x` =
`y` strictly before `x`); ties keep `x` first, which is what makes
`sortOrd` stable. -/
def insertOrd {α : Type} (bf : α → α → Bool) (x : α) : List α → List α
  | [] => [x]
  | y :: ys => if bf y x then y :: insertOrd bf x ys else x :: y :: ys

/-- Stable insertion sort: the embedding of Python `sorted` / pandas
`sort_values` (ties keep their presentation order). -/
def sortOrd {α : Type} (bf : α → α → Bool) : List α → List α
  | [] => []
  | x :: xs => insertOrd bf x (sortOrd bf xs)

/-- One OHLCV candle; `ts` is the `timestamp` column in epoch seconds. -/
structure Candle where
  ts : ℤ
  open_ : ℚ
  high : ℚ
  low : ℚ
  close : ℚ
  volume : ℚ
  deriving DecidableEq

/-- `ewm(..., adjust=False).mean()` recurrence on a gap-free series. -/
def ewmAux (a prev : ℚ) : List ℚ → List ℚ
  | [] => []
  | x :: xs =>
    let y := (1 - a) * prev + a * x
    y :: ewmAux a y xs

def ewm (a : ℚ) : List ℚ → List ℚ
  | [] => []
  | x :: xs => x :: ewmAux a x xs

namespace TechnicalIndicators

/-- `Series.ewm(span=period, adjust=False).mean()` over a column. -/
def calculate_ema (xs : List ℚ) (period : ℕ) : List ℚ :=
  ewm (2 / ((period : ℚ) + 1)) xs

/-- True range series: first row has no previous close, so pandas
`max(axis=1)` (skipna) reduces to `high - low` there. -/
def trueRangeList : List Candle → List ℚ
  | [] => []
  | c0 :: rest =>
    (c0.high - c0.low) ::
      List.zipWith
        (fun prev cur =>
          max (cur.high - cur.low)
            (max |cur.high - prev.close| |cur.low - prev.close|))
        (c0 :: rest) rest

/-- Wilder ATR: `true_range.ewm(alpha=1/period, adjust=False).mean()`. -/
def calculate_atr (cs : List Candle) (period : ℕ) : List ℚ :=
  ewm (1 / (period : ℚ)) (trueRangeList cs)

/-- `+DM` series; row 0 compares against NaN, so both guards are False. -/
def plusDmList : List Candle → List ℚ
  | [] => []
  | c0 :: rest =>
    0 ::
      List.zipWith
        (fun prev cur =>
          let up := cur.high - prev.high
          let down := prev.low - cur.low
          if up > down ∧ up > 0 then up else 0)
        (c0 :: rest) rest

def minusDmList : List Candle → List ℚ
  | [] => []
  | c0 :: rest =>
    0 ::
      List.zipWith
        (fun prev cur =>
          let up := cur.high - prev.high
          let down := prev.low - cur.low
          if down > up ∧ down > 0 then down else 0)
        (c0 :: rest) rest

/-- `100 * smoothed_dm / atr` with `inf`/NaN (division by zero) mapped to
`0.0` by the source's `replace([inf,-inf], nan).fillna(0.0)`. -/
def diDivide (sm atr : ℚ) : ℚ := if atr = 0 then 0 else 100 * sm / atr

structure AdxColumns where
  adx : List ℚ
  plus_di : List ℚ
  minus_di : List ℚ
  deriving DecidableEq

/-- `TechnicalIndicators.calculate_adx` (clipped output columns). -/
def calculate_adx (cs : List Candle) (period : ℕ) : AdxColumns :=
  let atr := calculate_atr cs period
  let smP := ewm (1 / (period : ℚ)) (plusDmList cs)
  let smM := ewm (1 / (period : ℚ)) (minusDmList cs)
  let pdi := List.zipWith diDivide smP atr
  let mdi := List.zipWith diDivide smM atr
  let dx :=
    List.zipWith
      (fun p m => if p + m = 0 then 0 else |p - m| / (p + m) * 100)
      pdi mdi
  let adx := ewm (1 / (period : ℚ)) dx
  { adx := adx.map (clipQ 0 100),
    plus_di := pdi.map (clipQ 0 100),
    minus_di := mdi.map (clipQ 0 100) }

/-- Wilder-smoothed average gains of the diff series (positions 1..n-1;
position 0 of the diff is NaN and pandas ewm starts at the first valid
value, i.e. at position 1). -/
def avgGains (closes : List ℚ) (period : ℕ) : List ℚ :=
  ewm (1 / (period : ℚ))
    ((List.zipWith (fun prev cur => cur - prev) closes closes.tail).map
      (fun d => max d 0))

def avgLosses (closes : List ℚ) (period : ℕ) : List ℚ :=
  ewm (1 / (period : ℚ))
    ((List.zipWith (fun prev cur => cur - prev) closes closes.tail).map
      (fun d => max (-d) 0))

/-- One RSI value from the smoothed averages: the `rs`/`where`/`clip`
pipeline of `calculate_rsi` collapses to this per-position form. -/
def rsiPoint (g l : ℚ) : ℚ :=
  clipQ 0 100 (if l = 0 then (if g = 0 then 50 else 100) else 100 - 100 / (1 + g / l))

/-- `TechnicalIndicators.calculate_rsi`; `none` is the raised
`ValueError` for a non-positive period, and the leading `none` in the
series is the NaN at position 0 (no previous close). -/
def calculate_rsi (closes : List ℚ) (period : ℕ) : Option (List (Option ℚ)) :=
  if period = 0 then none
  else
    some
      (match closes with
       | [] => []
       | _ :: _ =>
         none ::
           List.zipWith (fun g l => some (rsiPoint g l))
             (avgGains closes period) (avgLosses closes period))

/-- Cumulative VWAP; positions whose cumulative volume is zero are NaN
(`replace(0, nan)`), i.e. `none`. -/
def calculate_vwap (cs : List Candle) : List (Option ℚ) :=
  let tp := cs.map (fun c => (c.high + c.low + c.close) / 3)
  let cvp := scanSum (List.zipWith (fun t c => t * c.volume) tp cs)
  let cv := scanSum (cs.map Candle.volume)
  List.zipWith (fun p v => if v = 0 then none else some (p / v)) cvp cv

def secondsPerDay : ℤ := 86400

/-- `Timestamp.floor("D")` on epoch seconds. -/
def floorDay (ts : ℤ) : ℤ := secondsPerDay * Int.fdiv ts secondsPerDay

/-- Session key of one candle: the day start shifted by the session start
hour, moved back one day for candles before that day's session start. -/
def sessionKey (startHour : ℤ) (ts : ℤ) : ℤ :=
  let s := floorDay ts + startHour * 3600
  if ts < s then s - secondsPerDay else s

/-- `groupby(key).cumsum()` : running sums within each key group. -/
def groupCumsumAux (pre : List (ℤ × ℚ)) : List (ℤ × ℚ) → List ℚ
  | [] => []
  | (k, v) :: rest =>
    (((pre.filter (fun p => p.1 = k)).map Prod.snd).sum + v) ::
      groupCumsumAux (pre ++ [(k, v)]) rest

def groupCumsum (pairs : List (ℤ × ℚ)) : List ℚ := groupCumsumAux [] pairs

/-- `TechnicalIndicators.calculate_session_vwap`; the caller
(`SignalEngine._get_session_vwap_value`) supplies `session_start_hour=13`,
inside the checked `0..23` range. -/
def calculate_session_vwap (cs : List Candle) (startHour : ℤ) : List (Option ℚ) :=
  let keys := cs.map (fun c => sessionKey startHour c.ts)
  let tp := cs.map (fun c => (c.high + c.low + c.close) / 3)
  let vp := List.zipWith (fun t c => t * c.volume) tp cs
  let cvp := groupCumsum (List.zip keys vp)
  let cv := groupCumsum (List.zip keys (cs.map Candle.volume))
  List.zipWith (fun p v => if v = 0 then none else some (p / v)) cvp cv

end TechnicalIndicators

/-- One row of an indicator-enriched dataframe
(`TechnicalIndicators.add_all_indicators`, plus the swing columns that
`MarketStructure.detect_swing_points` appends). -/
structure IRow where
  candle : Candle
  ema_20 : ℚ
  ema_50 : ℚ
  atr : ℚ
  adx : ℚ
  plus_di : ℚ
  minus_di : ℚ
  rsi : Option ℚ
  vwap : Option ℚ
  swing_high : Option ℚ := none
  swing_low : Option ℚ := none
  deriving DecidableEq

def zipRows : List Candle → List ℚ → List ℚ → List ℚ → List ℚ → List ℚ →
    List ℚ → List (Option ℚ) → List (Option ℚ) → List IRow
  | c :: cs, a :: as_, b :: bs, d :: ds, e :: es, f :: fs, g :: gs,
    h :: hs, i :: is_ =>
    { candle := c, ema_20 := a, ema_50 := b, atr := d, adx := e,
      plus_di := f, minus_di := g, rsi := h, vwap := i } ::
      zipRows cs as_ bs ds es fs gs hs is_
  | _, _, _, _, _, _, _, _, _ => []

/-- `TechnicalIndicators.add_all_indicators` with its default periods
(EMA 20/50, ATR 14, ADX 14, RSI 14); the RSI period 14 is positive, so
the `getD` fallback is never taken. -/
def add_all_indicators (cs : List Candle) : List IRow :=
  let closes := cs.map Candle.close
  let e20 := TechnicalIndicators.calculate_ema closes 20
  let e50 := TechnicalIndicators.calculate_ema closes 50
  let atr := TechnicalIndicators.calculate_atr cs 14
  let adxc := TechnicalIndicators.calculate_adx cs 14
  let rsi := (TechnicalIndicators.calculate_rsi closes 14).getD []
  let vwap := TechnicalIndicators.calculate_vwap cs
  zipRows cs e20 e50 atr adxc.adx adxc.plus_di adxc.minus_di rsi vwap

/-- Row accessors shared by the frame consumers. -/
def IRow.close (r : IRow) : ℚ := r.candle.close

def IRow.high (r : IRow) : ℚ := r.candle.high

def IRow.low (r : IRow) : ℚ := r.candle.low

def IRow.volume (r : IRow) : ℚ := r.candle.volume

/-- `df["close"].iloc[-1]`; every embedded call site guards against the
empty frame first, so the default is never read. -/
def lastClose (rows : List IRow) : ℚ := ((rows.map IRow.close).getLast?).getD 0

/-- `SignalEngine._get_last_indicator`: drop NaN, take the last value
(`none` when the remaining series is empty). -/
def lastIndicatorQ (xs : List ℚ) : Option ℚ := xs.getLast?

def lastIndicatorOpt (xs : List (Option ℚ)) : Option ℚ := (xs.filterMap id).getLast?

namespace MarketStructure

/-- `MarketStructure.detect_swing_points` with its default `window=5`
(every call site uses the default, which passes the positivity check).
A high is a swing high iff it equals the centered rolling max over
`2*window+1` candles with `min_periods` equal to the full window. -/
def detect_swing_points (rows : List IRow) (window : ℕ) : List IRow :=
  let highs := rows.map IRow.high
  let lows := rows.map IRow.low
  let n := rows.length
  (List.range n).zipWith
    (fun i r =>
      let hasWindow : Bool := window ≤ i ∧ i + window < n
      let sh :=
        if hasWindow ∧
            seriesMax ((highs.drop (i - window)).take (2 * window + 1)) =
              some r.high
          then some r.high else none
      let sl :=
        if hasWindow ∧
            seriesMin ((lows.drop (i - window)).take (2 * window + 1)) =
              some r.low
          then some r.low else none
      { r with swing_high := sh, swing_low := sl })
    rows

/-- `_Zone`: running weighted-mean price and touch count. -/
structure Zone where
  price : ℚ
  touches : ℕ
  deriving DecidableEq

/-- `_Zone.register` with the default weight 1.0. -/
def Zone.register (z : Zone) (p : ℚ) : Zone :=
  { price := (z.price * z.touches + p) / (z.touches + 1), touches := z.touches + 1 }

/-- One step of the greedy matching loop in `_cluster_levels`: merge the
value into the first zone within relative tolerance, else append a new
zone at the end. -/
def clusterInsert (tol v : ℚ) : List Zone → List Zone
  | [] => [{ price := v, touches := 1 }]
  | z :: zs =>
    if |v - z.price| / max z.price eps8 ≤ tol then z.register v :: zs
    else z :: clusterInsert tol v zs

/-- `MarketStructure._cluster_levels`: the prices are sorted ascending
(`for value in sorted(prices)`) before the greedy pass; NaN values were
already dropped by the callers' `.dropna()`. -/
def cluster_levels (prices : List ℚ) (tol : ℚ) : List Zone :=
  (sortOrd (fun a b => a < b) prices).foldl (fun acc v => clusterInsert tol v acc) []

inductive Strength
  | strong
  | medium
  | weak
  deriving DecidableEq

/-- Output record of `identify_support_resistance` (`_format_zone`). -/
structure ZoneOut where
  price : ℚ
  touches : ℕ
  strength : Strength
  deriving DecidableEq

def formatZone (z : Zone) : ZoneOut :=
  { price := z.price, touches := z.touches,
    strength :=
      if z.touches ≥ 3 then Strength.strong
      else if z.touches = 2 then Strength.medium
      else Strength.weak }

/-- `_sort_key` rank (0 strong, 1 medium, 2 weak). -/
def zoneRank (z : Zone) : ℕ :=
  if z.touches ≥ 3 then 0 else if z.touches = 2 then 1 else 2

structure SRResult where
  resistances : List ZoneOut
  supports : List ZoneOut
  deriving DecidableEq

/-- `MarketStructure.identify_support_resistance` with its defaults
(`tolerance=0.005`, `min_touches=2`, `lookback=100`, all passing the
parameter checks); callers guarantee a non-empty frame, so the
`iloc[-1]` default of `lastClose` is never read. -/
def identify_support_resistance (rows : List IRow) (tol : ℚ) (minTouches : ℕ)
    (lookback : ℕ) : SRResult :=
  let data := if rows.length > lookback then lastN lookback rows else rows
  let current := lastClose data
  let res := cluster_levels (data.filterMap IRow.swing_high) tol
  let sup := cluster_levels (data.filterMap IRow.swing_low) tol
  let res := res.filter (fun z => z.touches ≥ minTouches)
  let sup := sup.filter (fun z => z.touches ≥ minTouches)
  let bf := fun (a b : Zone) =>
    decide
      (zoneRank a < zoneRank b ∨
        (zoneRank a = zoneRank b ∧ |a.price - current| < |b.price - current|))
  { resistances := (sortOrd bf res).map formatZone,
    supports := (sortOrd bf sup).map formatZone }

inductive StructureKind
  | HHHL
  | LHLL
  | MIXED
  deriving DecidableEq

inductive Trend
  | ALCISTA_FUERTE
  | ALCISTA
  | BAJISTA_FUERTE
  | BAJISTA
  | LATERAL
  | INESTABLE
  deriving DecidableEq

/-- The `"ALCISTA" in trend` / `"BAJISTA" in trend` / `"FUERTE" in trend`
substring tests over the trend labels the pipeline uses. -/
def Trend.hasAlcista : Trend → Bool
  | Trend.ALCISTA_FUERTE => true
  | Trend.ALCISTA => true
  | _ => false

def Trend.hasBajista : Trend → Bool
  | Trend.BAJISTA_FUERTE => true
  | Trend.BAJISTA => true
  | _ => false

def Trend.hasFuerte : Trend → Bool
  | Trend.ALCISTA_FUERTE => true
  | Trend.BAJISTA_FUERTE => true
  | _ => false

structure TrendInfo where
  trend : Trend
  trend_strength : ℚ
  structure_kind : StructureKind
  ema_alignment : Bool
  adx_value : ℚ
  deriving DecidableEq

/-- Last row of a frame; callers guard non-emptiness (pandas would raise
`IndexError` otherwise). -/
def lastRow (rows : List IRow) : IRow :=
  rows.getLast?.getD
    { candle := { ts := 0, open_ := 0, high := 0, low := 0, close := 0, volume := 0 },
      ema_20 := 0, ema_50 := 0, atr := 0, adx := 0, plus_di := 0, minus_di := 0,
      rsi := none, vwap := none }

/-- `MarketStructure.determine_trend` with its default `lookback=20`
(positive, so the parameter check passes). -/
def determine_trend (rows : List IRow) (lookback : ℕ) : TrendInfo :=
  let recent := if rows.length > lookback then lastN lookback rows else rows
  let last := lastRow recent
  let lastC := last.close
  let ema20 := last.ema_20
  let ema50 := last.ema_50
  let adxV := last.adx
  let highs := recent.filterMap IRow.swing_high
  let lows := recent.filterMap IRow.swing_low
  let sk :=
    if highs.length ≥ 2 ∧ lows.length ≥ 2 then
      let h2 := lastN 2 highs
      let l2 := lastN 2 lows
      let h0 := h2.headI
      let h1 := (h2.drop 1).headI
      let l0 := l2.headI
      let l1 := (l2.drop 1).headI
      if h0 < h1 ∧ l0 < l1 then StructureKind.HHHL
      else if h0 > h1 ∧ l0 > l1 then StructureKind.LHLL
      else StructureKind.MIXED
    else StructureKind.MIXED
  let bull : Bool := lastC > ema20 ∧ ema20 > ema50
  let bear : Bool := lastC < ema20 ∧ ema20 < ema50
  let trend :=
    if adxV < 20 then Trend.LATERAL
    else if sk = StructureKind.HHHL ∧ bull ∧ adxV ≥ 25 then Trend.ALCISTA_FUERTE
    else if sk = StructureKind.LHLL ∧ bear ∧ adxV ≥ 25 then Trend.BAJISTA_FUERTE
    else Trend.INESTABLE
  { trend := trend, trend_strength := clipQ 0 100 adxV, structure_kind := sk,
    ema_alignment := bull ∨ bear, adx_value := adxV }

end MarketStructure

namespace KeyLevels

/-- `_filter_by_window`: keep the candles whose time is within `window`
seconds of the last timestamp (timestamps are always valid integers, so
the `dropna` branch never removes anything). -/
def filter_by_window (cs : List Candle) (window : ℚ) : List Candle :=
  if window ≤ 0 then cs
  else
    match (cs.map Candle.ts).getLast? with
    | none => cs
    | some endT => cs.filter (fun c => (c.ts : ℚ) ≥ (endT : ℚ) - window)

/-- One bucket of the simplified volume profile. -/
structure Bin where
  lower : ℚ
  upper : ℚ
  center : ℚ
  volume : ℚ
  deriving DecidableEq

/-- `np.linspace(min_price, max_price, bins + 1)` evaluated at index `i`. -/
def edgeAt (minP maxP : ℚ) (n i : ℤ) : ℚ := minP + (maxP - minP) * i / n

/-- `np.digitize(x, edges, right=False)` for the strictly monotone edge
grids produced by `linspace` (increasing when `min < max`, decreasing
when `min > max`): the count of edges `≤ x` resp. `> x`. -/
def digitizeCount (minP maxP : ℚ) (n : ℤ) (x : ℚ) : ℤ :=
  if minP < maxP then
    (((List.range (n.toNat + 1)).filter
        (fun i => decide (edgeAt minP maxP n i ≤ x))).length : ℤ)
  else
    (((List.range (n.toNat + 1)).filter
        (fun i => decide (edgeAt minP maxP n i > x))).length : ℤ)

/-- `accumulated[idx] = accumulated.get(idx, 0.0) + vol` on an
insertion-ordered dict (Python dicts preserve insertion order). -/
def accumAdd (acc : List (ℤ × ℚ)) (k : ℤ) (v : ℚ) : List (ℤ × ℚ) :=
  if acc.any (fun p => p.1 = k) then
    acc.map (fun p => if p.1 = k then (p.1, p.2 + v) else p)
  else acc ++ [(k, v)]

def mkBinAt (minP maxP : ℚ) (n i : ℤ) (v : ℚ) : Bin :=
  let lo := edgeAt minP maxP n i
  let hi := edgeAt minP maxP n (i + 1)
  { lower := lo, upper := hi, center := (lo + hi) / 2, volume := v }

/-- `_build_volume_profile`.  Typical prices are always valid numbers
over ℚ, so the `ffill`/`bfill` step is the identity; the final
`sort_values("center")` has pairwise distinct keys (the bucket centers of
a strictly monotone grid), so the stable sort is exact. -/
def build_volume_profile (cs : List Candle) (window : ℚ) (bins : ℤ) : List Bin :=
  if cs = [] then []
  else
    let filtered := filter_by_window cs window
    if filtered = [] then []
    else
      let minP := (seriesMin (filtered.map Candle.low)).getD 0
      let maxP := (seriesMax (filtered.map Candle.high)).getD 0
      if iscloseQ minP maxP then
        [{ lower := minP, upper := maxP, center := (minP + maxP) / 2,
           volume := (filtered.map Candle.volume).sum }]
      else
        let n := max 1 bins
        let tp := filtered.map (fun c => (c.high + c.low + c.close) / 3)
        let idxs := tp.map (fun x => max 0 (min (n - 1) (digitizeCount minP maxP n x - 1)))
        let pairs := List.zip idxs (filtered.map Candle.volume)
        let acc := pairs.foldl (fun a p => accumAdd a p.1 p.2) []
        sortOrd (fun a b => decide (a.center < b.center))
          (acc.map (fun p => mkBinAt minP maxP n p.1 p.2))

/-- pandas `idxmax` over the volume column: the first bucket attaining
the maximum volume. -/
def firstMaxVol : List Bin → Option Bin
  | [] => none
  | x :: xs =>
    match firstMaxVol xs with
    | none => some x
    | some m => if m.volume > x.volume then some m else some x

/-- `calculate_poc`. -/
def calculate_poc (cs : List Candle) (window : ℚ) (bins : ℤ) : Option ℚ :=
  match firstMaxVol (build_volume_profile cs window bins) with
  | none => none
  | some m => some m.center

/-- The accumulation loop of `calculate_value_area`: consume rows in
sorted order, stopping after the row that reaches the threshold. -/
def takeUntilAcc (thr : ℚ) (acc : ℚ) : List Bin → List Bin
  | [] => []
  | b :: bs =>
    b :: (if thr ≤ acc + b.volume then [] else takeUntilAcc thr (acc + b.volume) bs)

/-- `calculate_value_area`; the outer `none` is the `ValueError` raised
for a coverage outside `(0, 1]`, and the descending volume sort is the
stable embedding of `sort_values("volume", ascending=False)`. -/
def calculate_value_area (cs : List Candle) (window : ℚ) (bins : ℤ)
    (coverage : ℚ) : Option (Option ℚ × Option ℚ) :=
  if ¬(0 < coverage ∧ coverage ≤ 1) then none
  else
    let profile := build_volume_profile cs window bins
    if profile = [] then some (none, none)
    else
      let total := (profile.map Bin.volume).sum
      if total ≤ 0 then some (none, none)
      else
        let selected :=
          takeUntilAcc (total * coverage) 0
            (sortOrd (fun a b => decide (b.volume < a.volume)) profile)
        if selected = [] then some (none, none)
        else some (seriesMax (selected.map Bin.upper), seriesMin (selected.map Bin.lower))

structure Extremes where
  pwh : Option ℚ := none
  pwl : Option ℚ := none
  pdh : Option ℚ := none
  pdl : Option ℚ := none
  deriving DecidableEq

/-- `Timestamp.weekday()` (Monday = 0) of a day start in epoch seconds;
epoch day zero (1970-01-01) was a Thursday. -/
def weekdayOf (dayStart : ℤ) : ℤ :=
  Int.fmod (Int.fdiv dayStart TechnicalIndicators.secondsPerDay + 3) 7

/-- `get_previous_period_extremes` with `current_time=None` (the engine
never passes one): the reference is the last candle's timestamp. -/
def get_previous_period_extremes (cs : List Candle) : Extremes :=
  match (cs.map Candle.ts).getLast? with
  | none => {}
  | some latest =>
    let day := TechnicalIndicators.floorDay latest
    let prevDay := cs.filter (fun c =>
      day - TechnicalIndicators.secondsPerDay ≤ c.ts ∧ c.ts < day)
    let weekStart := day - weekdayOf day * TechnicalIndicators.secondsPerDay
    let prevWeek := cs.filter (fun c =>
      weekStart - 7 * TechnicalIndicators.secondsPerDay ≤ c.ts ∧ c.ts < weekStart)
    { pdh := seriesMax (prevDay.map Candle.high),
      pdl := seriesMin (prevDay.map Candle.low),
      pwh := seriesMax (prevWeek.map Candle.high),
      pwl := seriesMin (prevWeek.map Candle.low) }

structure SessionHL where
  high : Option ℚ := none
  low : Option ℚ := none
  deriving DecidableEq

structure Sessions where
  asia : SessionHL := {}
  london : SessionHL := {}
  new_york : SessionHL := {}
  deriving DecidableEq

/-- Scan the candidate days (most recent first) and return the extremes
from the first day with candles inside the session window. -/
def sessionWindowScan (cs : List Candle) (startH endH : ℤ) : List ℤ → SessionHL
  | [] => {}
  | d :: rest =>
    let inW := cs.filter (fun c => d + startH * 3600 ≤ c.ts ∧ c.ts < d + endH * 3600)
    if inW = [] then sessionWindowScan cs startH endH rest
    else { high := seriesMax (inW.map Candle.high), low := seriesMin (inW.map Candle.low) }

/-- `get_session_extremes` with `current_time=None`. -/
def get_session_extremes (cs : List Candle) : Sessions :=
  match (cs.map Candle.ts).getLast? with
  | none => {}
  | some latest =>
    let day := TechnicalIndicators.floorDay latest
    let days := [day, day - TechnicalIndicators.secondsPerDay,
      day - 2 * TechnicalIndicators.secondsPerDay]
    { asia := sessionWindowScan cs 0 9 days,
      london := sessionWindowScan cs 7 16 days,
      new_york := sessionWindowScan cs 13 21 days }

end KeyLevels

instance : Inhabited Candle :=
  ⟨{ ts := 0, open_ := 0, high := 0, low := 0, close := 0, volume := 0 }⟩

instance : Inhabited IRow :=
  ⟨{ candle := default, ema_20 := 0, ema_50 := 0, atr := 0, adx := 0,
     plus_di := 0, minus_di := 0, rsi := none, vwap := none }⟩

namespace OrderFlow

inductive Pressure
  | BUYING
  | SELLING
  | NEUTRAL
  deriving DecidableEq

structure OFResult where
  pressure : Pressure
  strength : ℚ
  cvd_change : ℚ
  cvd_change_normalized : ℚ
  volume_rel : ℚ
  score : ℤ
  deriving DecidableEq

/-- The default dict of `analyze_volume_pressure` (the source key of
`volume_rel` is the volume-to-average quotient). -/
def ofDefault : OFResult :=
  { pressure := Pressure.NEUTRAL, strength := 0, cvd_change := 0,
    cvd_change_normalized := 0, volume_rel := 0, score := 0 }

/-- `OrderFlowAnalyzer.analyze_volume_pressure`. -/
def analyze_volume_pressure (rows : List IRow) (cvd : List (Option ℚ))
    (lookback : ℕ) : OFResult :=
  if rows = [] then ofDefault
  else if cvd = [] then ofDefault
  else
    let minLen := min rows.length cvd.length
    if minLen < max lookback 2 then ofDefault
    else
      let recentDf := lastN lookback (lastN minLen rows)
      let recentCvd := lastN lookback (lastN minLen cvd)
      let valid := (List.zip recentDf recentCvd).filterMap
        (fun p => p.2.map (fun q => (p.1, q)))
      if valid.length < 2 then ofDefault
      else
        let cvds := valid.map Prod.snd
        let vols := valid.map (fun p => p.1.volume)
        let change := cvds.getLast?.getD 0 - cvds.head?.getD 0
        let avgVol := listMean vols
        let norm := if avgVol > 0 then change / avgVol * 100 else 0
        let strength := min 100 |norm|
        let pressure :=
          if norm > 30 then Pressure.BUYING
          else if norm < -30 then Pressure.SELLING
          else Pressure.NEUTRAL
        let score : ℤ :=
          if norm > 30 then 20
          else if norm < -30 then 20
          else truncQ (strength / 5)
        let lastVol := vols.getLast?.getD 0
        let rel := if avgVol > 0 then lastVol / avgVol else 1
        let score := if rel > 13 / 10 then min 20 (score + 5) else score
        { pressure := pressure, strength := strength, cvd_change := change,
          cvd_change_normalized := norm, volume_rel := rel, score := min 20 score }

inductive DivKind
  | BULLISH
  | BEARISH
  deriving DecidableEq

inductive DivStrength
  | STRONG
  | WEAK
  deriving DecidableEq

structure Divergence where
  kind : DivKind
  strength : DivStrength
  bonus_score : ℤ
  deriving DecidableEq

/-- `_find_local_minima`: interior indices that are ≤ than every value in
the `window`-wide neighbourhoods on both sides. -/
def localMinima (data : List ℚ) (w : ℕ) : List ℕ :=
  (List.range data.length).filter (fun i =>
    decide (w ≤ i) ∧ decide (i + w < data.length) ∧
      ((List.range' (i - w) w).all (fun j => decide (data.getD i 0 ≤ data.getD j 0))) ∧
      ((List.range' (i + 1) w).all (fun j => decide (data.getD i 0 ≤ data.getD j 0))))

def localMaxima (data : List ℚ) (w : ℕ) : List ℕ :=
  (List.range data.length).filter (fun i =>
    decide (w ≤ i) ∧ decide (i + w < data.length) ∧
      ((List.range' (i - w) w).all (fun j => decide (data.getD j 0 ≤ data.getD i 0))) ∧
      ((List.range' (i + 1) w).all (fun j => decide (data.getD j 0 ≤ data.getD i 0))))

def divStrengthOf (c1 c2 : ℚ) : DivStrength :=
  if |c2 - c1| / max |c1| eps8 > 1 / 10 then DivStrength.STRONG else DivStrength.WEAK

def divBonus : DivStrength → ℤ
  | DivStrength.STRONG => 15
  | DivStrength.WEAK => 10

/-- `OrderFlowAnalyzer.detect_cvd_divergence`. -/
def detect_cvd_divergence (closes : List ℚ) (cvd : List (Option ℚ))
    (lookback : ℕ) : Option Divergence :=
  if closes = [] then none
  else
    let minLen := min closes.length cvd.length
    if minLen < 6 then none
    else
      let window := min lookback minLen
      let valid := (List.zip (lastN window closes) (lastN window cvd)).filterMap
        (fun p => p.2.map (fun q => (p.1, q)))
      if valid.length < 5 then none
      else
        let ap := valid.map Prod.fst
        let ac := valid.map Prod.snd
        let lowsIdx := localMinima ap 3
        let highsIdx := localMaxima ap 3
        let fromLows :=
          if lowsIdx.length ≥ 2 then
            let i1 := (lastN 2 lowsIdx).headI
            let i2 := lowsIdx.getLast?.getD 0
            let p1 := ap.getD i1 0
            let p2 := ap.getD i2 0
            let c1 := ac.getD i1 0
            let c2 := ac.getD i2 0
            if p2 < p1 ∧ c2 > c1 then
              some { kind := DivKind.BULLISH, strength := divStrengthOf c1 c2,
                     bonus_score := divBonus (divStrengthOf c1 c2) }
            else none
          else none
        match fromLows with
        | some d => some d
        | none =>
          if highsIdx.length ≥ 2 then
            let i1 := (lastN 2 highsIdx).headI
            let i2 := highsIdx.getLast?.getD 0
            let p1 := ap.getD i1 0
            let p2 := ap.getD i2 0
            let c1 := ac.getD i1 0
            let c2 := ac.getD i2 0
            if p2 > p1 ∧ c2 < c1 then
              some { kind := DivKind.BEARISH, strength := divStrengthOf c1 c2,
                     bonus_score := divBonus (divStrengthOf c1 c2) }
            else none
          else none

end OrderFlow

namespace Patterns

inductive PatternName
  | engulfing
  | hammer
  | three_consecutive
  | shooting_star
  deriving DecidableEq

/-- `PatternDetector.detect_bullish_engulfing`. -/
def detect_bullish_engulfing (rows : List IRow) : Bool :=
  if rows.length < 2 then false
  else
    let l2 := lastN 2 rows
    let prev := l2.headI.candle
    let cur := ((l2.drop 1).headI).candle
    if ¬(prev.close < prev.open_ ∧ cur.close > cur.open_) then false
    else if |cur.close - cur.open_| ≤ |prev.close - prev.open_| * (105 / 100) then false
    else cur.open_ ≤ prev.close ∧ cur.close ≥ prev.open_

def detect_bearish_engulfing (rows : List IRow) : Bool :=
  if rows.length < 2 then false
  else
    let l2 := lastN 2 rows
    let prev := l2.headI.candle
    let cur := ((l2.drop 1).headI).candle
    if ¬(prev.close > prev.open_ ∧ cur.close < cur.open_) then false
    else if |cur.close - cur.open_| ≤ |prev.close - prev.open_| * (105 / 100) then false
    else cur.open_ ≥ prev.close ∧ cur.close ≤ prev.open_

/-- `PatternDetector.detect_hammer`; `get_all_patterns` sets
`at_support` exactly when a support zone is supplied, so the proximity
condition is appended iff `zone` is `some`. -/
def detect_hammer (rows : List IRow) (zone : Option ℚ) : Bool :=
  match rows.getLast? with
  | none => false
  | some r =>
    let c := r.candle
    let body := |c.close - c.open_|
    if body = 0 then false
    else
      let lowerWick := min c.open_ c.close - c.low
      let upperWick := c.high - max c.open_ c.close
      let inUpperHalf : Bool := max c.open_ c.close ≥ c.high - body * (1 / 2)
      (decide (lowerWick ≥ body * 2) && decide (upperWick ≤ body * (1 / 2)) &&
        inUpperHalf &&
        (match zone with
         | none => true
         | some z => decide (|c.close - z| / max z eps8 ≤ 1 / 100)))

def detect_shooting_star (rows : List IRow) (zone : Option ℚ) : Bool :=
  match rows.getLast? with
  | none => false
  | some r =>
    let c := r.candle
    let body := |c.close - c.open_|
    if body = 0 then false
    else
      let lowerWick := min c.open_ c.close - c.low
      let upperWick := c.high - max c.open_ c.close
      let inLowerHalf : Bool := min c.open_ c.close ≤ c.low + body * (1 / 2)
      (decide (upperWick ≥ body * 2) && decide (lowerWick ≤ body * (1 / 2)) &&
        inLowerHalf &&
        (match zone with
         | none => true
         | some z => decide (|c.close - z| / max z eps8 ≤ 1 / 100)))

/-- `PatternDetector.detect_three_consecutive` at the literal directions
`"bullish"` / `"bearish"` that `get_all_patterns` passes. -/
def detect_three_consecutive (rows : List IRow) (bull : Bool) : Bool :=
  if rows.length < 3 then false
  else
    let cs := (lastN 3 rows).map IRow.candle
    let c0 := cs.headI
    let c1 := (cs.drop 1).headI
    let c2 := (cs.drop 2).headI
    let volOk : Bool :=
      decide (c1.volume ≥ c0.volume * (95 / 100)) &&
        decide (c2.volume ≥ c1.volume * (95 / 100))
    if bull then
      (decide (c0.close > c0.open_) && decide (c1.close > c1.open_) &&
        decide (c2.close > c2.open_) && volOk)
    else
      (decide (c0.close < c0.open_) && decide (c1.close < c1.open_) &&
        decide (c2.close < c2.open_) && volOk)

structure PatternsResult where
  bullish : List PatternName
  bearish : List PatternName
  score : ℤ
  deriving DecidableEq

/-- `PatternDetector.get_all_patterns`. -/
def get_all_patterns (rows : List IRow) (supportZone resistZone : Option ℚ) :
    PatternsResult :=
  let bullish :=
    (if detect_bullish_engulfing rows then [PatternName.engulfing] else []) ++
      (if detect_hammer rows supportZone then [PatternName.hammer] else []) ++
        (if detect_three_consecutive rows true then [PatternName.three_consecutive] else [])
  let bearish :=
    (if detect_bearish_engulfing rows then [PatternName.engulfing] else []) ++
      (if detect_shooting_star rows resistZone then [PatternName.shooting_star] else []) ++
        (if detect_three_consecutive rows false then [PatternName.three_consecutive] else [])
  { bullish := bullish, bearish := bearish,
    score := if bullish ≠ [] ∨ bearish ≠ [] then 10 else 0 }

end Patterns

namespace ConfluenceNS

/-- The names of the candidate levels `SignalScorer._build_confluence_levels`
assembles (Python dict keys, in insertion order). -/
inductive LevelName
  | poc_weekly
  | poc_daily
  | vwap
  | vwap_session
  | ema_50
  | val
  | vah
  | swing_support
  | pdl
  | pwl
  | swing_resistance
  | pdh
  | pwh
  deriving DecidableEq

structure Confluence where
  count : ℕ
  levels : List LevelName
  multiplier : ℚ
  deriving DecidableEq

/-- `ConfluenceDetector.calculate_multiplier`. -/
def calculate_multiplier (count : ℕ) : ℚ :=
  if count ≥ 4 then 3 / 2 else if count = 3 then 6 / 5 else 1

/-- `ConfluenceDetector.detect_confluences`; a ℚ price is always finite,
so only the `price <= 0` guard of the source can fire, and an `Option ℚ`
level is always numeric once it is `some`. -/
def detect_confluences (price : ℚ) (levels : List (LevelName × Option ℚ))
    (tolerance : ℚ) : Confluence :=
  if price ≤ 0 then { count := 0, levels := [], multiplier := 1 }
  else
    let t := max 0 tolerance
    let nearby := levels.filterMap (fun p =>
      match p.2 with
      | none => none
      | some l => if l > 0 ∧ |price - l| / price ≤ t then some p.1 else none)
    { count := nearby.length, levels := nearby,
      multiplier := calculate_multiplier nearby.length }

end ConfluenceNS

namespace BTCFilter

open MarketStructure

inductive Volatility
  | ALTA
  | NORMAL
  | BAJA
  deriving DecidableEq

inductive SessionQuality
  | ALTA
  | MEDIA
  | BAJA
  deriving DecidableEq

structure BTCContext where
  trend : Trend
  trend_strength : ℚ
  volatility : Volatility
  session_quality : SessionQuality
  multiplier_long : ℚ
  multiplier_short : ℚ
  should_trade : Bool
  current_price : Option ℚ
  atr : Option ℚ
  adx : Option ℚ
  deriving DecidableEq

/-- `BTCFilter._get_session_quality` on the UTC hour of the scan time. -/
def get_session_quality (nowTs : ℤ) : SessionQuality :=
  let hour := Int.fmod (Int.fdiv nowTs 3600) 24
  if 13 ≤ hour ∧ hour < 17 then SessionQuality.ALTA
  else if 7 ≤ hour ∧ hour < 13 then SessionQuality.MEDIA
  else SessionQuality.BAJA

/-- `BTCFilter._calculate_volatility` with its default `lookback=20`;
the ATR column always exists on a prepared frame and holds no NaN, so
`dropna` is the identity. -/
def calculate_volatility (df : List IRow) (lookback : ℕ) : Volatility :=
  let recent := df.map IRow.atr
  if recent = [] then Volatility.NORMAL
  else
    let cur := recent.getLast?.getD 0
    let window := if recent.length ≥ lookback then lastN lookback recent else recent
    let mean := if window = [] then cur else listMean window
    if mean ≤ 0 then Volatility.NORMAL
    else if cur > mean * (3 / 2) then Volatility.ALTA
    else if cur < mean * (7 / 10) then Volatility.BAJA
    else Volatility.NORMAL

/-- `BTCFilter._calculate_multipliers`: the `if/elif` ladder on the trend
label's substrings, the volatility scaling with floor/cap, and the final
`round(x, 2)`. -/
def calculate_multipliers (t : Trend) (v : Volatility) : ℚ × ℚ :=
  let lm :=
    if t.hasAlcista then (if t.hasFuerte then 6 / 5 else 1)
    else if t.hasBajista then (if t.hasFuerte then 2 / 5 else 1 / 2)
    else if t = Trend.LATERAL then 7 / 10
    else 1 / 5
  let sm :=
    if t.hasAlcista then (if t.hasFuerte then 3 / 10 else 2 / 5)
    else if t.hasBajista then (if t.hasFuerte then 6 / 5 else 1)
    else if t = Trend.LATERAL then 7 / 10
    else 1 / 5
  let lm :=
    match v with
    | Volatility.ALTA => max (1 / 5) (lm * (1 / 2))
    | Volatility.BAJA => min (6 / 5) (lm * (11 / 10))
    | Volatility.NORMAL => lm
  let sm :=
    match v with
    | Volatility.ALTA => max (1 / 5) (sm * (1 / 2))
    | Volatility.BAJA => min (6 / 5) (sm * (11 / 10))
    | Volatility.NORMAL => sm
  (round2 lm, round2 sm)

/-- `BTCFilter._should_trade_decision`. -/
def should_trade_decision (t : Trend) (strength : ℚ) (v : Volatility) : Bool :=
  if t = Trend.INESTABLE then false
  else if v = Volatility.ALTA ∧ strength < 35 then false
  else if t = Trend.LATERAL ∧ strength < 20 then false
  else true

/-- `BTCFilter._get_trend_from_df`. -/
def get_trend_from_df (df : List IRow) : TrendInfo :=
  if df = [] then
    { trend := Trend.INESTABLE, trend_strength := 0,
      structure_kind := StructureKind.MIXED, ema_alignment := false, adx_value := 0 }
  else determine_trend (detect_swing_points df 5) 20

/-- `BTCFilter.analyze_btc_context` (the `None`-dataframe `ValueError`
has no counterpart: the embedding always receives lists). -/
def analyze_btc_context (df4 df1 : List IRow) (nowTs : ℤ) : BTCContext :=
  if df4 = [] ∨ df1 = [] then
    { trend := Trend.INESTABLE, trend_strength := 0, volatility := Volatility.ALTA,
      session_quality := get_session_quality nowTs,
      multiplier_long := 1 / 5, multiplier_short := 1 / 5, should_trade := false,
      current_price := (df1.map IRow.close).getLast?, atr := none, adx := none }
  else
    let ti := get_trend_from_df df4
    let vol := calculate_volatility df4 20
    let m := calculate_multipliers ti.trend vol
    { trend := ti.trend, trend_strength := ti.trend_strength, volatility := vol,
      session_quality := get_session_quality nowTs,
      multiplier_long := m.1, multiplier_short := m.2,
      should_trade := should_trade_decision ti.trend ti.trend_strength vol,
      current_price := some (lastClose df1),
      atr := (df4.map IRow.atr).getLast?, adx := (df4.map IRow.adx).getLast? }

end BTCFilter

inductive Dir
  | LONG
  | SHORT
  deriving DecidableEq

/-- The human-readable `reasons` strings, abstracted to tagged values
(the numeric payloads are the interpolated quantities). -/
inductive Reason
  | estructura_alcista (level : ℚ)
  | precio_sobre_vwap
  | estructura_bajista (level : ℚ)
  | precio_rechazado_vwap
  | presion_compradora (norm : ℚ) (score : ℤ)
  | presion_vendedora (norm : ℚ) (score : ℤ)
  | divergencia_alcista (s : OrderFlow.DivStrength)
  | divergencia_bajista (s : OrderFlow.DivStrength)
  | patron_alcista (p : Patterns.PatternName)
  | patron_bajista (p : Patterns.PatternName)
  | sweep_soporte
  | sweep_maximos
  deriving DecidableEq

/-- The setup dict built by `SignalDetector.detect_long_setup` /
`detect_short_setup`.  `Option` fields model Python `dict.get`: a long
setup has no `resistance_level` key and a short setup no
`support_level`, and neither detector ever writes `orderflow_score`,
`pattern_score` or `previous_extreme_sweep` (the last one is added later
by `SignalEngine.scan_for_signals`), so those `get`s see the defaults
below. -/
structure Setup where
  direction : Dir
  base_score : ℤ
  structure_valid : Bool
  orderflow_valid : Bool
  pattern_valid : Bool
  liquidity_sweep : Bool
  reasons : List Reason
  support_level : Option ℚ := none
  resistance_level : Option ℚ := none
  entry_zone : ℚ × ℚ
  divergence : Option OrderFlow.Divergence
  orderflow_score : Option ℚ := none
  pattern_score : Option ℚ := none
  previous_extreme_sweep : Bool := false
  deriving DecidableEq

/-- The `market_structure` dict assembled in `scan_for_signals`. -/
structure MarketData where
  supports : List MarketStructure.ZoneOut
  resistances : List MarketStructure.ZoneOut
  trend : MarketStructure.TrendInfo
  deriving DecidableEq

namespace SignalDetector

open MarketStructure OrderFlow Patterns

/-- `SignalDetector._find_closest_level`: `none` plays the role of the
`(None, inf)` return (every finite distance beats the initial `inf`). -/
def find_closest_level (price : ℚ) (levels : List ZoneOut) : Option (ℚ × ℚ) :=
  levels.foldl
    (fun acc z =>
      let d := |price - z.price| / max z.price eps8
      match acc with
      | none => some (z.price, d)
      | some (_, bd) => if d < bd then some (z.price, d) else acc)
    none

/-- `SignalDetector._detect_liquidity_sweep_long`. -/
def detect_liquidity_sweep_long (df : List IRow) (lvl : Option ℚ) : Bool :=
  match lvl with
  | none => false
  | some l =>
    if df.length < 2 then false
    else
      let recent := lastN 2 df
      (match seriesMin (recent.map IRow.low) with
       | some m => decide (m < l * (998 / 1000))
       | none => false) &&
        decide (lastClose df > l)

def detect_liquidity_sweep_short (df : List IRow) (lvl : Option ℚ) : Bool :=
  match lvl with
  | none => false
  | some l =>
    if df.length < 2 then false
    else
      let recent := lastN 2 df
      (match seriesMax (recent.map IRow.high) with
       | some m => decide (m > l * (1002 / 1000))
       | none => false) &&
        decide (lastClose df < l)

def build_entry_zone_long (price : ℚ) (lvl : Option ℚ) : ℚ × ℚ :=
  match lvl with
  | none => (price - price * (5 / 1000), price + price * (5 / 1000))
  | some l => (l * (998 / 1000), l * (1004 / 1000))

def build_entry_zone_short (price : ℚ) (lvl : Option ℚ) : ℚ × ℚ :=
  match lvl with
  | none => (price - price * (5 / 1000), price + price * (5 / 1000))
  | some l => (l * (996 / 1000), l * (1002 / 1000))

/-- The `structure_conditions` list of `detect_long_setup`, conjoined
(`all(...)`): closest support within 1 % relative distance of the level,
bullish trend label, HH/HL structure, and last close not more than 0.5 %
below the last 1h VWAP value. -/
def long_structure_valid (df1 : List IRow) (ms : MarketData) : Bool :=
  let price := lastClose df1
  (match find_closest_level price ms.supports with
   | some (_, d) => decide (d ≤ 1 / 100)
   | none => false) &&
    ms.trend.trend.hasAlcista &&
    decide (ms.trend.structure_kind = StructureKind.HHHL) &&
    (match ((df1.map IRow.vwap).getLast?).getD none with
     | some w => decide (price ≥ w * (995 / 1000))
     | none => false)

/-- The `structure_conditions` list of `detect_short_setup`, conjoined. -/
def short_structure_valid (df1 : List IRow) (ms : MarketData) : Bool :=
  let price := lastClose df1
  (match find_closest_level price ms.resistances with
   | some (_, d) => decide (d ≤ 1 / 100)
   | none => false) &&
    ms.trend.trend.hasBajista &&
    decide (ms.trend.structure_kind = StructureKind.LHLL) &&
    (match ((df1.map IRow.vwap).getLast?).getD none with
     | some w => decide (price ≤ w * (1005 / 1000))
     | none => false)

/-- `SignalDetector.detect_long_setup`. -/
def detect_long_setup (df4 df1 : List IRow) (cvd4 cvd1 : List (Option ℚ))
    (ms : MarketData) : Option Setup :=
  if df4 = [] ∨ df1 = [] then none
  else
    let price := lastClose df1
    let closest := find_closest_level price ms.supports
    if ¬long_structure_valid df1 ms then none
    else
      let supportLevel := closest.map Prod.fst
      let ofr := analyze_volume_pressure df1 cvd1 4
      if ¬(ofr.pressure = Pressure.BUYING && decide (ofr.score ≥ 15)) then none
      else
        let div0 := detect_cvd_divergence (df1.map IRow.close) cvd1 20
        let div := match div0 with
          | some d => if d.kind = DivKind.BULLISH then some d else none
          | none => none
        let pats := get_all_patterns df1 supportLevel none
        let patternValid : Bool := pats.bullish ≠ []
        let sweep := detect_liquidity_sweep_long df1 supportLevel
        some
          { direction := Dir.LONG,
            base_score :=
              20 + ofr.score + (match div with | some d => d.bonus_score | none => 0) +
                (if patternValid then min 10 pats.score else 0) +
                  (if sweep then 10 else 0),
            structure_valid := true, orderflow_valid := true,
            pattern_valid := patternValid, liquidity_sweep := sweep,
            reasons :=
              [Reason.estructura_alcista (supportLevel.getD 0), Reason.precio_sobre_vwap] ++
                [Reason.presion_compradora ofr.cvd_change_normalized ofr.score] ++
                  (match div with
                   | some d => [Reason.divergencia_alcista d.strength]
                   | none => []) ++
                    (if patternValid then pats.bullish.map Reason.patron_alcista else []) ++
                      (if sweep then [Reason.sweep_soporte] else []),
            support_level := supportLevel,
            entry_zone := build_entry_zone_long price supportLevel,
            divergence := div }

/-- `SignalDetector.detect_short_setup`. -/
def detect_short_setup (df4 df1 : List IRow) (cvd4 cvd1 : List (Option ℚ))
    (ms : MarketData) : Option Setup :=
  if df4 = [] ∨ df1 = [] then none
  else
    let price := lastClose df1
    let closest := find_closest_level price ms.resistances
    if ¬short_structure_valid df1 ms then none
    else
      let resistanceLevel := closest.map Prod.fst
      let ofr := analyze_volume_pressure df1 cvd1 4
      if ¬(ofr.pressure = Pressure.SELLING && decide (ofr.score ≥ 15)) then none
      else
        let div0 := detect_cvd_divergence (df1.map IRow.close) cvd1 20
        let div := match div0 with
          | some d => if d.kind = DivKind.BEARISH then some d else none
          | none => none
        let pats := get_all_patterns df1 none resistanceLevel
        let patternValid : Bool := pats.bearish ≠ []
        let sweep := detect_liquidity_sweep_short df1 resistanceLevel
        some
          { direction := Dir.SHORT,
            base_score :=
              20 + ofr.score + (match div with | some d => d.bonus_score | none => 0) +
                (if patternValid then min 10 pats.score else 0) +
                  (if sweep then 10 else 0),
            structure_valid := true, orderflow_valid := true,
            pattern_valid := patternValid, liquidity_sweep := sweep,
            reasons :=
              [Reason.estructura_bajista (resistanceLevel.getD 0), Reason.precio_rechazado_vwap] ++
                [Reason.presion_vendedora ofr.cvd_change_normalized ofr.score] ++
                  (match div with
                   | some d => [Reason.divergencia_bajista d.strength]
                   | none => []) ++
                    (if patternValid then pats.bearish.map Reason.patron_bajista else []) ++
                      (if sweep then [Reason.sweep_maximos] else []),
            resistance_level := resistanceLevel,
            entry_zone := build_entry_zone_short price resistanceLevel,
            divergence := div }

end SignalDetector

/-- The scalar entries of the key-levels map built by
`SignalEngine._get_or_compute_key_levels` (`None` entries are sanitized
NaNs or missing extremes). -/
structure KLCore where
  poc_weekly : Option ℚ := none
  poc_daily : Option ℚ := none
  vah : Option ℚ := none
  val : Option ℚ := none
  pwh : Option ℚ := none
  pwl : Option ℚ := none
  pdh : Option ℚ := none
  pdl : Option ℚ := none
  deriving DecidableEq

/-- The key-levels map: scalar levels plus the nested `sessions` dict. -/
structure KL where
  core : KLCore
  sessions : KeyLevels.Sessions
  deriving DecidableEq

def KL.poc_weekly (k : KL) : Option ℚ := k.core.poc_weekly

def KL.poc_daily (k : KL) : Option ℚ := k.core.poc_daily

def KL.vah (k : KL) : Option ℚ := k.core.vah

def KL.val (k : KL) : Option ℚ := k.core.val

def KL.pwh (k : KL) : Option ℚ := k.core.pwh

def KL.pwl (k : KL) : Option ℚ := k.core.pwl

def KL.pdh (k : KL) : Option ℚ := k.core.pdh

def KL.pdl (k : KL) : Option ℚ := k.core.pdl

/-- `SignalEngine._build_indicator_context` output. -/
structure IndicatorContext where
  vwap : Option ℚ := none
  ema_50 : Option ℚ := none
  vwap_session : Option ℚ := none
  deriving DecidableEq

inductive Confidence
  | ALTA
  | MEDIA
  | BAJA
  deriving DecidableEq

namespace SignalScorer

open ConfluenceNS BTCFilter

/-- `SignalScorer._to_float`: an `Option ℚ` is already a finite number
or absent, so this is the identity. -/
def to_float (v : Option ℚ) : Option ℚ := v

structure BaseComponents where
  structure_comp : ℚ
  order_flow : ℚ
  patterns : ℚ
  liquidity : ℚ
  key_levels : ℚ
  deriving DecidableEq

def BaseComponents.sum (b : BaseComponents) : ℚ :=
  b.structure_comp + b.order_flow + b.patterns + b.liquidity + b.key_levels

/-- `SignalScorer._structure_score` (`if support and support > 0`
collapses to `0 < support` because `0.0` is falsy). -/
def structure_score (dir : Dir) (setup : Setup) (price : ℚ) (kl : KL) : ℚ :=
  let levelPart : ℚ :=
    match (if dir = Dir.LONG then to_float setup.support_level
           else to_float setup.resistance_level) with
    | some s => if 0 < s ∧ |price - s| / max s eps8 ≤ 1 / 100 then 15 else 0
    | none => 0
  let pocPart : ℚ :=
    match to_float kl.poc_weekly with
    | some p => if 0 < p ∧ |price - p| / max p eps8 ≤ 5 / 1000 then 5 else 0
    | none => 0
  min (levelPart + pocPart) 20

/-- `SignalScorer._order_flow_score`: it reads the `orderflow_score` key
of the setup dict (which `SignalDetector` never writes) and clamps to
`[0, 20]`; `_to_float(...) or 0.0` maps an absent key to `0.0`. -/
def order_flow_score (setup : Setup) : ℚ :=
  max 0 (min ((to_float setup.orderflow_score).getD 0) 20)

/-- `SignalScorer._pattern_score` (reads the likewise never-written
`pattern_score` key). -/
def pattern_score (setup : Setup) : ℚ :=
  max 0 (min ((to_float setup.pattern_score).getD 0) 10)

/-- `SignalScorer._liquidity_score`. -/
def liquidity_score (setup : Setup) : ℚ :=
  min 15 ((if setup.liquidity_sweep then (10 : ℚ) else 0) +
    (if setup.previous_extreme_sweep then (5 : ℚ) else 0))

/-- `SignalScorer._key_level_score`. -/
def key_level_score (dir : Dir) (price : ℚ) (kl : KL) (ind : IndicatorContext) : ℚ :=
  let vwap := to_float ind.vwap
  let vaPart : ℚ :=
    if dir = Dir.LONG then
      match to_float kl.val with
      | some v => if 0 < v ∧ |price - v| / max v eps8 ≤ 5 / 1000 then 10 else 0
      | none => 0
    else
      match to_float kl.vah with
      | some v => if 0 < v ∧ |price - v| / max v eps8 ≤ 5 / 1000 then 10 else 0
      | none => 0
  let vwapPart : ℚ :=
    if dir = Dir.LONG then
      match vwap with
      | some w => if 0 < w ∧ |price - w| / max w eps8 ≤ 2 / 1000 then 5 else 0
      | none => 0
    else
      match vwap with
      | some w => if 0 < w ∧ price ≤ w ∧ |price - w| / max w eps8 ≤ 2 / 1000 then 5 else 0
      | none => 0
  min (vaPart + vwapPart) 15

def base_components (dir : Dir) (setup : Setup) (price : ℚ) (kl : KL)
    (ind : IndicatorContext) : BaseComponents :=
  { structure_comp := structure_score dir setup price kl,
    order_flow := order_flow_score setup,
    patterns := pattern_score setup,
    liquidity := liquidity_score setup,
    key_levels := key_level_score dir price kl ind }

/-- `SignalScorer._build_confluence_levels` (dict insertion order). -/
def build_confluence_levels (dir : Dir) (setup : Setup) (kl : KL)
    (ind : IndicatorContext) : List (LevelName × Option ℚ) :=
  [(LevelName.poc_weekly, kl.poc_weekly), (LevelName.poc_daily, kl.poc_daily),
   (LevelName.vwap, ind.vwap), (LevelName.vwap_session, ind.vwap_session),
   (LevelName.ema_50, ind.ema_50), (LevelName.val, kl.val),
   (LevelName.vah, kl.vah)] ++
    (if dir = Dir.LONG then
      [(LevelName.swing_support, setup.support_level), (LevelName.pdl, kl.pdl),
       (LevelName.pwl, kl.pwl)]
     else
      [(LevelName.swing_resistance, setup.resistance_level), (LevelName.pdh, kl.pdh),
       (LevelName.pwh, kl.pwh)])

/-- `SignalScorer._calculate_confluence_bonus`. -/
def calculate_confluence_bonus (c : Confluence) : ℚ :=
  if c.count ≤ 1 then 0
  else ((c.count : ℚ) - 1) * 10 + (if c.count ≥ 4 then 20 else 0)

def select_multiplier (dir : Dir) (btc : BTCContext) : ℚ :=
  if dir = Dir.LONG then btc.multiplier_long else btc.multiplier_short

def session_bonus : SessionQuality → ℤ
  | SessionQuality.ALTA => 10
  | SessionQuality.MEDIA => 5
  | SessionQuality.BAJA => 0

def determine_confidence (score : ℚ) : Confidence :=
  if score ≥ 110 then Confidence.ALTA
  else if score ≥ 85 then Confidence.MEDIA
  else Confidence.BAJA

/-- The confluence entry of the score dict (`int(...)` applied to the
bonus). -/
structure ConfluenceOut where
  count : ℕ
  levels : List LevelName
  multiplier : ℚ
  bonus : ℤ
  deriving DecidableEq

structure ScoreResult where
  final_score : ℚ
  base_score : ℚ
  btc_multiplier : ℚ
  bonus : ℤ
  penalties : ℤ
  confidence : Confidence
  should_alert : Bool
  confluence : ConfluenceOut
  base_components : BaseComponents
  session_bonus : ℤ
  correlation_bonus : ℤ
  divergence_bonus : ℤ
  deriving DecidableEq

end SignalScorer

/-- The configured symbols (`settings.SYMBOLS` defaults to
`BTC/USDT,ETH/USDT,SOL/USDT`; only the `BTC` prefix and the exact
`BTC/USDT` / `ETH/USDT` names matter to the pipeline, so other symbols
are indexed). -/
inductive Sym
  | btcusdt
  | ethusdt
  | other (n : ℕ)
  deriving DecidableEq

/-- `symbol.upper().startswith("BTC")` over the configured symbols. -/
def Sym.isBtc : Sym → Bool
  | Sym.btcusdt => true
  | _ => false

namespace SignalScorer

open ConfluenceNS BTCFilter

/-- `SignalScorer._calculate_correlation_bonus`. -/
def correlation_bonus (sym : Sym) (btc : BTCContext) (dir : Dir) : ℤ :=
  if sym.isBtc then 0
  else if btc.trend.hasAlcista then (if dir = Dir.LONG then 10 else -15)
  else if btc.trend.hasBajista then (if dir = Dir.SHORT then 10 else -15)
  else 0

/-- `SignalScorer.calculate_final_score`. -/
def calculate_final_score (setup : Setup) (btc : BTCContext) (sym : Sym)
    (price : ℚ) (kl : KL) (ind : IndicatorContext) : ScoreResult :=
  let dir := setup.direction
  let comps := base_components dir setup price kl ind
  let base := min comps.sum 80
  let cdata := detect_confluences price (build_confluence_levels dir setup kl ind) (5 / 1000)
  let cbonus := calculate_confluence_bonus cdata
  let btcMult := select_multiplier dir btc
  let sbonus := session_bonus btc.session_quality
  let corr := correlation_bonus sym btc dir
  let dbonus : ℤ := match setup.divergence with
    | some d => d.bonus_score
    | none => 0
  let other := sbonus + corr + dbonus
  let final := (base * cdata.multiplier + cbonus) * btcMult + (other : ℚ)
  { final_score := round2 final, base_score := round2 base,
    btc_multiplier := round2 btcMult, bonus := truncQ ((other : ℚ) + cbonus),
    penalties := 0, confidence := determine_confidence final,
    should_alert := decide (final ≥ 60),
    confluence := { count := cdata.count, levels := cdata.levels,
                    multiplier := cdata.multiplier, bonus := truncQ cbonus },
    base_components := comps, session_bonus := sbonus,
    correlation_bonus := corr, divergence_bonus := dbonus }

end SignalScorer

inductive TF
  | h4
  | h1
  deriving DecidableEq

/-- One row of `CVDStorage.get_cvd` (the `cvd_period` column is unused
by the engine). -/
structure CvdRow where
  ts : ℤ
  cvd_cumulative : ℚ
  deriving DecidableEq

/-- The external collaborators of `SignalEngine` (candle storage, CVD
storage, configuration, and the scan wall-clock), per the engine's
boundary: `DataStorage.get_ohlcv`, `CVDStorage.get_cvd`,
`settings.SYMBOLS`, `datetime.utcnow()`. -/
structure Env where
  ohlcv : Sym → TF → ℕ → List Candle
  cvdRows : Sym → TF → ℕ → List CvdRow
  symbols : List Sym
  nowTs : ℤ

/-- The final `Signal` dataclass (strings abstracted to the tagged types
above, datetimes to epoch seconds). -/
structure Signal where
  symbol : Sym
  direction : Dir
  score : ℚ
  confidence : Confidence
  entry_price : ℚ
  stop_loss : ℚ
  take_profit_1 : ℚ
  take_profit_2 : ℚ
  take_profit_3 : ℚ
  risk_percent : ℚ
  suggested_position_size : ℚ
  btc_trend : MarketStructure.Trend
  session_quality : BTCFilter.SessionQuality
  timestamp : ℤ
  valid_until : ℤ
  reasons : List Reason
  atr_value : Option ℚ
  adx_value : Option ℚ
  rsi_value : Option ℚ
  base_score : ℚ
  base_components : SignalScorer.BaseComponents
  key_levels : KL
  confluence : SignalScorer.ConfluenceOut
  btc_multiplier : ℚ
  total_bonus : ℤ
  deriving DecidableEq

namespace SignalEngine

open MarketStructure KeyLevels BTCFilter SignalScorer

/-- `SignalEngine._load_and_prepare_data` with the default
`limit=200`. -/
def load_and_prepare_data (env : Env) (sym : Sym) (tf : TF) : List IRow :=
  let df := env.ohlcv sym tf 200
  if df = [] then [] else add_all_indicators df

/-- `SignalEngine._load_cvd_series`: timestamps are valid integers, so
the `pd.isna` branch never fires; the dict built from the CVD rows keeps
the last row per timestamp (later assignments overwrite earlier ones). -/
def load_cvd_series (env : Env) (sym : Sym) (tf : TF) (tss : List ℤ) :
    List (Option ℚ) :=
  if tss = [] then []
  else
    let rows := env.cvdRows sym tf (tss.length + 10)
    if rows = [] then []
    else
      tss.map (fun t =>
        (rows.reverse.find? (fun r => r.ts = t)).map CvdRow.cvd_cumulative)

/-- `SignalEngine._sanitize_level`: an `Option ℚ` value is already a
finite number or absent. -/
def sanitize_level (v : Option ℚ) : Option ℚ := v

/-- The key-levels map assembled inside
`SignalEngine._get_or_compute_key_levels` (the pure value; caching and
copying are modelled separately). -/
def compute_key_levels (df : List IRow) : KL :=
  let cs := df.map IRow.candle
  let weekly : ℚ := 7 * 86400
  let daily : ℚ := 86400
  let va := (calculate_value_area cs weekly 20 (7 / 10)).getD (none, none)
  let ex := get_previous_period_extremes cs
  let ses := get_session_extremes cs
  { core :=
      { poc_weekly := sanitize_level (calculate_poc cs weekly 20),
        poc_daily := sanitize_level (calculate_poc cs daily 20),
        vah := sanitize_level va.1, val := sanitize_level va.2,
        pwh := sanitize_level ex.pwh, pwl := sanitize_level ex.pwl,
        pdh := sanitize_level ex.pdh, pdl := sanitize_level ex.pdl },
    sessions :=
      { asia := { high := sanitize_level ses.asia.high, low := sanitize_level ses.asia.low },
        london := { high := sanitize_level ses.london.high, low := sanitize_level ses.london.low },
        new_york := { high := sanitize_level ses.new_york.high,
                      low := sanitize_level ses.new_york.low } } }

/-- The per-symbol TTL cache (`self._key_levels_cache`) as a pure map;
each entry is `{"timestamp": now, "data": ...}`.  Copies are value
copies here; the aliasing behaviour of `copy.deepcopy` is modelled by
the heap semantics further below. -/
def Cache : Type := Sym → Option (ℤ × KL)

/-- `SignalEngine._get_or_compute_key_levels` (value level): a hit within
the 3600-second TTL returns the cached data, otherwise the map is
recomputed and stored. -/
def get_or_compute_key_levels (cache : Cache) (sym : Sym) (df : List IRow)
    (now : ℤ) : KL × Cache :=
  match cache sym with
  | some (ts, data) =>
    if now - ts < 3600 then (data, cache)
    else
      let kl := compute_key_levels df
      (kl, fun s => if s = sym then some (now, kl) else cache s)
  | none =>
    let kl := compute_key_levels df
    (kl, fun s => if s = sym then some (now, kl) else cache s)

/-- `SignalEngine._build_indicator_context` (the `vwap` and `ema_50`
entries go through `_get_last_indicator`, i.e. `dropna` then last; the
session VWAP hour 13 passes the range check, so the `try/except` never
returns NaN here and only the last-value lookup can be absent). -/
def build_indicator_context (df : List IRow) : IndicatorContext :=
  { vwap := sanitize_level (lastIndicatorOpt (df.map IRow.vwap)),
    ema_50 := sanitize_level (lastIndicatorQ (df.map IRow.ema_50)),
    vwap_session :=
      sanitize_level
        ((TechnicalIndicators.calculate_session_vwap (df.map IRow.candle) 13).getLast?.getD
          none) }

/-- `SignalEngine._did_price_sweep`. -/
def did_price_sweep (df : List IRow) (level : ℚ) (dir : Dir) (lookback : ℕ) : Bool :=
  if level ≤ 0 then false
  else if df = [] then false
  else
    let recent := lastN (max lookback 2) df
    if recent.length < 2 then false
    else
      match dir with
      | Dir.LONG =>
        (match seriesMin (recent.map IRow.low) with
         | some m => decide (m < level * (999 / 1000))
         | none => false) &&
          decide ((recent.map IRow.close).getLast?.getD 0 > level)
      | Dir.SHORT =>
        (match seriesMax (recent.map IRow.high) with
         | some m => decide (m > level * (1001 / 1000))
         | none => false) &&
          decide ((recent.map IRow.close).getLast?.getD 0 < level)

/-- `SignalEngine._detect_previous_extreme_sweep` with its default
`lookback=4`; `for level in levels if level` skips `None` and `0.0`. -/
def detect_previous_extreme_sweep (df : List IRow) (kl : KL) (dir : Dir) : Bool :=
  if df = [] then false
  else
    let levels :=
      match dir with
      | Dir.LONG => [sanitize_level kl.pdl, sanitize_level kl.pwl]
      | Dir.SHORT => [sanitize_level kl.pdh, sanitize_level kl.pwh]
    levels.any (fun lvl =>
      match lvl with
      | some l => if l ≠ 0 then did_price_sweep df l dir 4 else false
      | none => false)

/-- The LONG branch of the risk-management block in `_create_signal`:
stop-loss, then take-profits at 2×/3×/4× the effective risk distance. -/
def long_stop_targets (price : ℚ) (supportLevel : Option ℚ) (atr : Option ℚ)
    (atrMult : ℚ) : ℚ × ℚ × ℚ × ℚ :=
  let minRisk := price * (5 / 1000)
  let support :=
    match supportLevel with
    | none => price * (98 / 100)
    | some s => s
  let stop0 :=
    match atr with
    | some a => support - a * atrMult
    | none => support * (98 / 100)
  let stop :=
    if stop0 ≥ price then price - max minRisk |price - support| else stop0
  let risk := max (price - stop) minRisk
  (stop, price + risk * 2, price + risk * 3, price + risk * 4)

/-- The SHORT branch of the risk-management block in `_create_signal`. -/
def short_stop_targets (price : ℚ) (resistanceLevel : Option ℚ) (atr : Option ℚ)
    (atrMult : ℚ) : ℚ × ℚ × ℚ × ℚ :=
  let minRisk := price * (5 / 1000)
  let resistance :=
    match resistanceLevel with
    | none => price * (102 / 100)
    | some r => r
  let stop0 :=
    match atr with
    | some a => resistance + a * atrMult
    | none => resistance * (102 / 100)
  let stop :=
    if stop0 ≤ price then price + max minRisk |resistance - price| else stop0
  let risk := max (stop - price) minRisk
  (stop, price - risk * 2, price - risk * 3, price - risk * 4)

/-- `SignalEngine._create_signal`; `none` stands for the `IndexError`
pandas would raise on an empty 1h frame (callers guard non-emptiness,
and the scan wraps this call in `try/except`). -/
def create_signal (sym : Sym) (setup : Setup) (sr : ScoreResult)
    (btc : BTCContext) (df1 : List IRow) (kl : KL) (conf : ConfluenceOut)
    (now : ℤ) : Option Signal :=
  if df1 = [] then none
  else
    let price := lastClose df1
    let atr := lastIndicatorQ (df1.map IRow.atr)
    let adx := lastIndicatorQ (df1.map IRow.adx)
    let rsi := lastIndicatorOpt (df1.map IRow.rsi)
    let atrMult : ℚ :=
      if sym = Sym.btcusdt then 3 / 2 else if sym = Sym.ethusdt then 2 else 5 / 2
    let t :=
      if setup.direction = Dir.LONG then
        long_stop_targets price setup.support_level atr atrMult
      else short_stop_targets price setup.resistance_level atr atrMult
    let stop := t.1
    let tp1 := t.2.1
    let tp2 := t.2.2.1
    let tp3 := t.2.2.2
    some
      { symbol := sym, direction := setup.direction, score := sr.final_score,
        confidence := sr.confidence, entry_price := price, stop_loss := stop,
        take_profit_1 := tp1, take_profit_2 := tp2, take_profit_3 := tp3,
        risk_percent := |(stop - price) / price| * 100,
        suggested_position_size :=
          match sr.confidence with
          | Confidence.ALTA => 3 / 2
          | Confidence.MEDIA => 1
          | Confidence.BAJA => 1 / 2,
        btc_trend := btc.trend, session_quality := btc.session_quality,
        timestamp := now, valid_until := now + 3600, reasons := setup.reasons,
        atr_value := atr, adx_value := adx, rsi_value := rsi,
        base_score := sr.base_score, base_components := sr.base_components,
        key_levels := kl, confluence := conf, btc_multiplier := sr.btc_multiplier,
        total_bonus := sr.bonus }

/-- The body of `for setup in [long_setup, short_setup]` for one setup:
augment, score, and append the built signal when it alerts.  A `none`
result from `create_signal` is the caught-and-logged per-symbol failure
(the scan continues). -/
def processSetup (btc : BTCContext) (sym : Sym) (df1 : List IRow) (kl : KL)
    (ind : IndicatorContext) (price : ℚ) (now : ℤ) (sigs : List Signal)
    (setup : Option Setup) : List Signal :=
  match setup with
  | none => sigs
  | some s =>
    let aug :=
      { s with previous_extreme_sweep := detect_previous_extreme_sweep df1 kl s.direction }
    let sr := SignalScorer.calculate_final_score aug btc sym price kl ind
    if ¬sr.should_alert then sigs
    else
      match create_signal sym aug sr btc df1 kl sr.confluence now with
      | some sig => sigs ++ [sig]
      | none => sigs

/-- The per-symbol loop body of `SignalEngine.scan_for_signals`. -/
def processSymbol (env : Env) (btc : BTCContext) (acc : Cache × List Signal)
    (sym : Sym) : Cache × List Signal :=
  let df4 := load_and_prepare_data env sym TF.h4
  let df1 := load_and_prepare_data env sym TF.h1
  if df4 = [] ∨ df1 = [] then acc
  else
    let df4s := MarketStructure.detect_swing_points df4 5
    let sr := MarketStructure.identify_support_resistance df4s (5 / 1000) 2 100
    let trend := MarketStructure.determine_trend df4s 20
    let ms : MarketData :=
      { supports := sr.supports, resistances := sr.resistances, trend := trend }
    let cvd4 := load_cvd_series env sym TF.h4 (df4s.map (fun r => r.candle.ts))
    let cvd1 := load_cvd_series env sym TF.h1 (df1.map (fun r => r.candle.ts))
    let longS := SignalDetector.detect_long_setup df4s df1 cvd4 cvd1 ms
    let shortS := SignalDetector.detect_short_setup df4s df1 cvd4 cvd1 ms
    let klc := get_or_compute_key_levels acc.1 sym df1 env.nowTs
    let ind := build_indicator_context df1
    let price := lastClose df1
    let sigs :=
      processSetup btc sym df1 klc.1 ind price env.nowTs
        (processSetup btc sym df1 klc.1 ind price env.nowTs acc.2 longS) shortS
    (klc.2, sigs)

/-- `SignalEngine.scan_for_signals`: the BTC master gate, the per-symbol
loop, and the final sort-descending-by-score / top-2 truncation (stable,
`list.sort(key=..., reverse=True)`). -/
def scan_for_signals (env : Env) (symbolsArg : Option (List Sym)) : List Signal :=
  let symbols := symbolsArg.getD env.symbols
  let btc4 := load_and_prepare_data env Sym.btcusdt TF.h4
  let btc1 := load_and_prepare_data env Sym.btcusdt TF.h1
  if btc4 = [] ∨ btc1 = [] then []
  else
    let btcCtx := BTCFilter.analyze_btc_context btc4 btc1 env.nowTs
    if ¬btcCtx.should_trade then []
    else
      let res := symbols.foldl (processSymbol env btcCtx) ((fun _ => none : Cache), [])
      (sortOrd (fun a b => decide (b.score < a.score)) res.2).take 2

end SignalEngine

namespace HeapModel

/-!
Heap semantics for `SignalEngine._get_or_compute_key_levels`.  The
key-levels dict and its nested `sessions` dict are mutable Python
objects; `copy.deepcopy` allocates fresh objects for both levels.  A
reference is an address `ℕ`, fresh addresses come from `next`, and the
per-symbol cache stores the address of its own deep copy.
-/

inductive Obj
  | klObj (core : KLCore) (sessionsRef : ℕ)
  | sesObj (s : KeyLevels.Sessions)
  deriving DecidableEq

structure HState where
  heap : ℕ → Option Obj
  next : ℕ
  cache : Sym → Option (ℤ × ℕ)

/-- Allocate a fresh object. -/
def alloc (st : HState) (o : Obj) : ℕ × HState :=
  (st.next,
   { heap := fun r => if r = st.next then some o else st.heap r,
     next := st.next + 1, cache := st.cache })

/-- Materialise a key-levels value as a fresh two-object structure: this
is what building the dict, and also `copy.deepcopy` of such a dict, do. -/
def storeKL (st : HState) (v : KL) : ℕ × HState :=
  let a := alloc st (Obj.sesObj v.sessions)
  alloc a.2 (Obj.klObj v.core a.1)

/-- Resolve a key-levels reference to its value (follows the nested
sessions reference). -/
def readKL (st : HState) (r : ℕ) : Option KL :=
  match st.heap r with
  | some (Obj.klObj c s) =>
    match st.heap s with
    | some (Obj.sesObj ss) => some { core := c, sessions := ss }
    | _ => none
  | _ => none

def sessionsRefOf (st : HState) (r : ℕ) : Option ℕ :=
  match st.heap r with
  | some (Obj.klObj _ s) => some s
  | _ => none

/-- In-place mutation of the object at `r` (e.g. a caller writing into a
returned dict or into its nested sessions dict). -/
def writeHeap (st : HState) (r : ℕ) (o : Obj) : HState :=
  { heap := fun x => if x = r then some o else st.heap x,
    next := st.next, cache := st.cache }

def setCache (st : HState) (sym : Sym) (e : ℤ × ℕ) : HState :=
  { heap := st.heap, next := st.next,
    cache := fun s => if s = sym then some e else st.cache s }

/-- `SignalEngine._get_or_compute_key_levels` over the heap: a TTL hit
returns `copy.deepcopy(cache_entry["data"])`; otherwise the freshly
computed dict is deep-copied into the cache and an independent deep copy
is returned. -/
def get_or_compute_key_levels_heap (st : HState) (sym : Sym) (df : List IRow)
    (now : ℤ) : ℕ × HState :=
  let computePath : ℕ × HState :=
    let kl := SignalEngine.compute_key_levels df
    let c := storeKL st kl
    storeKL (setCache c.2 sym (now, c.1)) kl
  match st.cache sym with
  | some (ts, cref) =>
    if now - ts < 3600 then
      match readKL st cref with
      | some v => storeKL st v
      | none => computePath
    else computePath
  | none => computePath

/-- Well-formedness: every cached reference resolves, and all its
addresses are below the allocation frontier. -/
def wf (st : HState) : Prop :=
  ∀ sym ts c, st.cache sym = some (ts, c) →
    ∃ core s ss, st.heap c = some (Obj.klObj core s) ∧
      st.heap s = some (Obj.sesObj ss) ∧ c < st.next ∧ s < st.next

end HeapModel

/-!
Concrete scenarios used to evaluate the embedded pipeline at explicit
inputs.
-/

/-- A 1h row with the given OHLCV data and a fixed `vwap` column value
(the other indicator columns are irrelevant to the detector path). -/
def demoRow (o h l c v : ℚ) (vw : Option ℚ) : IRow :=
  { candle := { ts := 0, open_ := o, high := h, low := l, close := c, volume := v },
    ema_20 := 0, ema_50 := 0, atr := 0, adx := 0, plus_di := 0, minus_di := 0,
    rsi := none, vwap := vw }

/-- Five green 1h candles climbing to a last close of 100.5, with the 1h
VWAP column at 99 (the last close is 1.5% above VWAP). -/
def demoDf1 : List IRow :=
  [demoRow (1001 / 10 - 5 / 100) (1001 / 10 + 1 / 10) (1001 / 10 - 15 / 100) (1001 / 10) 10 (some 99),
   demoRow (1002 / 10 - 5 / 100) (1002 / 10 + 1 / 10) (1002 / 10 - 15 / 100) (1002 / 10) 10 (some 99),
   demoRow (1003 / 10 - 5 / 100) (1003 / 10 + 1 / 10) (1003 / 10 - 15 / 100) (1003 / 10) 10 (some 99),
   demoRow (1004 / 10 - 5 / 100) (1004 / 10 + 1 / 10) (1004 / 10 - 15 / 100) (1004 / 10) 10 (some 99),
   demoRow (1005 / 10 - 5 / 100) (1005 / 10 + 1 / 10) (1005 / 10 - 15 / 100) (1005 / 10) 10 (some 99)]

def demoDf4 : List IRow := [demoRow 100 101 99 100 10 none]

/-- CVD jumps by 50 on the last candle: normalized change 500 > 30,
BUYING pressure with score 20. -/
def demoCvd1 : List (Option ℚ) := [some 0, some 0, some 0, some 0, some 50]

/-- A strong support at 100 (0.5% below the last close) and a bullish
strong 4h trend with HH/HL structure. -/
def demoMs : MarketData :=
  { supports := [{ price := 100, touches := 3, strength := MarketStructure.Strength.strong }],
    resistances := [],
    trend := { trend := MarketStructure.Trend.ALCISTA_FUERTE, trend_strength := 30,
               structure_kind := MarketStructure.StructureKind.HHHL,
               ema_alignment := true, adx_value := 30 } }

/-- A malformed candle with `low > high` (the spec's candle model never
rules this out): the volume-profile bin grid runs backwards. -/
def c6Bad : Candle := { ts := 0, open_ := 6, high := 5, low := 10, close := 6, volume := 1 }

def c6A : Candle := { ts := 0, open_ := 101, high := 102, low := 100, close := 101, volume := 5 }

def c6B : Candle := { ts := 3600, open_ := 101, high := 103, low := 101, close := 102, volume := 3 }

/-- A 1h frame whose last ATR is tiny (0.01) against a close of 100.1:
the raw stop-loss `support - atr*mult` lands only 0.125% below entry. -/
def c4Row : IRow :=
  { candle := { ts := 0, open_ := 100, high := 101, low := 99, close := 1001 / 10, volume := 10 },
    ema_20 := 0, ema_50 := 0, atr := 1 / 100, adx := 0, plus_di := 0, minus_di := 0,
    rsi := none, vwap := none }

def c4Setup : Setup :=
  { direction := Dir.LONG, base_score := 0, structure_valid := true,
    orderflow_valid := true, pattern_valid := false, liquidity_sweep := false,
    reasons := [], support_level := some 100, entry_zone := (0, 0), divergence := none }

def c4Score : SignalScorer.ScoreResult :=
  { final_score := 0, base_score := 0, btc_multiplier := 1, bonus := 0,
    penalties := 0, confidence := Confidence.BAJA, should_alert := false,
    confluence := { count := 0, levels := [], multiplier := 1, bonus := 0 },
    base_components := { structure_comp := 0, order_flow := 0, patterns := 0,
                         liquidity := 0, key_levels := 0 },
    session_bonus := 0, correlation_bonus := 0, divergence_bonus := 0 }

def c4Btc : BTCFilter.BTCContext :=
  { trend := MarketStructure.Trend.LATERAL, trend_strength := 0,
    volatility := BTCFilter.Volatility.NORMAL,
    session_quality := BTCFilter.SessionQuality.BAJA,
    multiplier_long := 7 / 10, multiplier_short := 7 / 10, should_trade := true,
    current_price := none, atr := none, adx := none }

def c4Kl : KL := { core := {}, sessions := {} }

/-- A second, SHORT-side stop-loss scenario for the same frame. -/
def c4SetupShort : Setup :=
  { direction := Dir.SHORT, base_score := 0, structure_valid := true,
    orderflow_valid := true, pattern_valid := false, liquidity_sweep := false,
    reasons := [], resistance_level := some (1003 / 10), entry_zone := (0, 0),
    divergence := none }

/-- One flat BTC candle: ADX 0 ⇒ LATERAL with strength 0 ⇒ the gate
`should_trade` is false. -/
def btcCandle : Candle := { ts := 0, open_ := 1, high := 2, low := 1, close := 3 / 2, volume := 1 }

/-- Environment whose BTC context fails the gate while ETH data is
present: the scan must return no signals regardless. -/
def c1Env : Env :=
  { ohlcv := fun s _ _ =>
      match s with
      | Sym.btcusdt => [btcCandle]
      | Sym.ethusdt => [btcCandle]
      | _ => [],
    cvdRows := fun _ _ _ => [], symbols := [Sym.ethusdt], nowTs := 0 }

/-- The empty heap state for the cache model. -/
def hState0 : HeapModel.HState :=
  { heap := fun _ => none, next := 0, cache := fun _ => none }

def defaultSignal : Signal :=
  { symbol := Sym.other 0, direction := Dir.LONG, score := 0,
    confidence := Confidence.BAJA, entry_price := 0, stop_loss := 0,
    take_profit_1 := 0, take_profit_2 := 0, take_profit_3 := 0,
    risk_percent := 0, suggested_position_size := 0,
    btc_trend := MarketStructure.Trend.INESTABLE,
    session_quality := BTCFilter.SessionQuality.BAJA, timestamp := 0,
    valid_until := 0, reasons := [], atr_value := none, adx_value := none,
    rsi_value := none, base_score := 0,
    base_components := { structure_comp := 0, order_flow := 0, patterns := 0,
                         liquidity := 0, key_levels := 0 },
    key_levels := { core := {}, sessions := {} },
    confluence := { count := 0, levels := [], multiplier := 1, bonus := 0 },
    btc_multiplier := 1, total_bonus := 0 }

/-- The LONG signal built from the `c4Row` scenario. -/
def c4Sig : Signal :=
  (SignalEngine.create_signal (Sym.other 0) c4Setup c4Score c4Btc [c4Row] c4Kl
      c4Score.confluence 0).getD defaultSignal

/-- The SHORT signal built from the `c4Row` scenario. -/
def c4SigShort : Signal :=
  (SignalEngine.create_signal (Sym.other 0) c4SetupShort c4Score c4Btc [c4Row] c4Kl
      c4Score.confluence 0).getD defaultSignal

/-!
Shared lemmas about the list primitives of the embedding.
-/

theorem foldl_min_le_acc (ys : List ℚ) (a : ℚ) : ys.foldl min a ≤ a := by
  induction ys generalizing a with
  | nil => simp
  | cons y ys ih => exact le_trans (ih (min a y)) (min_le_left a y)

theorem foldl_min_le_mem {x : ℚ} :
    ∀ {ys : List ℚ} (a : ℚ), x ∈ ys → ys.foldl min a ≤ x := by
  intro ys
  induction ys with
  | nil => intro a h; cases h
  | cons y ys ih =>
    intro a h
    rcases List.mem_cons.mp h with rfl | h
    · exact le_trans (foldl_min_le_acc ys (min a x)) (min_le_right a x)
    · exact ih (min a y) h

theorem acc_le_foldl_max (ys : List ℚ) (a : ℚ) : a ≤ ys.foldl max a := by
  induction ys generalizing a with
  | nil => simp
  | cons y ys ih => exact le_trans (le_max_left a y) (ih (max a y))

theorem mem_le_foldl_max {x : ℚ} :
    ∀ {ys : List ℚ} (a : ℚ), x ∈ ys → x ≤ ys.foldl max a := by
  intro ys
  induction ys with
  | nil => intro a h; cases h
  | cons y ys ih =>
    intro a h
    rcases List.mem_cons.mp h with rfl | h
    · exact le_trans (le_max_right a x) (acc_le_foldl_max ys (max a x))
    · exact ih (max a y) h

theorem seriesMin_le {xs : List ℚ} {m x : ℚ} (hm : seriesMin xs = some m)
    (hx : x ∈ xs) : m ≤ x := by
  cases xs with
  | nil => cases hx
  | cons y ys =>
    have hm' : ys.foldl min y = m := by simpa [seriesMin] using hm
    subst hm'
    rcases List.mem_cons.mp hx with rfl | h
    · exact foldl_min_le_acc ys x
    · exact foldl_min_le_mem y h

theorem le_seriesMax {xs : List ℚ} {m x : ℚ} (hm : seriesMax xs = some m)
    (hx : x ∈ xs) : x ≤ m := by
  cases xs with
  | nil => cases hx
  | cons y ys =>
    have hm' : ys.foldl max y = m := by simpa [seriesMax] using hm
    subst hm'
    rcases List.mem_cons.mp hx with rfl | h
    · exact acc_le_foldl_max ys x
    · exact mem_le_foldl_max y h

theorem insertOrd_perm {α : Type} (bf : α → α → Bool) (x : α) (l : List α) :
    (insertOrd bf x l).Perm (x :: l) := by
  induction l with
  | nil => simp [insertOrd]
  | cons y ys ih =>
    by_cases h : bf y x
    · simpa [insertOrd, h] using (ih.cons y).trans (List.Perm.swap x y ys)
    · simp [insertOrd, h]

theorem sortOrd_perm {α : Type} (bf : α → α → Bool) (l : List α) :
    (sortOrd bf l).Perm l := by
  induction l with
  | nil => simp [sortOrd]
  | cons x xs ih => exact (insertOrd_perm bf x (sortOrd bf xs)).trans (ih.cons x)

theorem mem_of_mem_sortOrd {α : Type} {bf : α → α → Bool} {x : α} {l : List α}
    (h : x ∈ sortOrd bf l) : x ∈ l := (sortOrd_perm bf l).mem_iff.mp h

theorem insertOrd_sorted_ltQ {x : ℚ} {l : List ℚ} (h : l.Sorted (· ≤ ·)) :
    (insertOrd (fun a b => decide (a < b)) x l).Sorted (· ≤ ·) := by
  induction l with
  | nil => simp [insertOrd]
  | cons y ys ih =>
    rcases List.sorted_cons.mp h with ⟨hy, hys⟩
    by_cases hlt : y < x
    · rw [insertOrd, if_pos (by simpa using hlt)]
      refine List.sorted_cons.mpr ⟨?_, ih hys⟩
      intro b hb
      have hb' : b ∈ x :: ys :=
        (insertOrd_perm (fun a b => decide (a < b)) x ys).mem_iff.mp hb
      rcases List.mem_cons.mp hb' with rfl | hbys
      · exact hlt.le
      · exact hy b hbys
    · rw [insertOrd, if_neg (by simpa using hlt)]
      refine List.sorted_cons.mpr ⟨?_, h⟩
      intro b hb
      rcases List.mem_cons.mp hb with rfl | hb
      · exact le_of_not_lt hlt
      · exact (le_of_not_lt hlt).trans (hy b hb)

theorem sortOrd_sorted_ltQ (l : List ℚ) :
    (sortOrd (fun a b => decide (a < b)) l).Sorted (· ≤ ·) := by
  induction l with
  | nil => simp [sortOrd]
  | cons x xs ih => exact insertOrd_sorted_ltQ ih

theorem sortOrd_ltQ_eq_of_perm {l₁ l₂ : List ℚ} (h : l₁.Perm l₂) :
    sortOrd (fun a b => decide (a < b)) l₁ = sortOrd (fun a b => decide (a < b)) l₂ :=
  List.eq_of_perm_of_sorted
    ((sortOrd_perm _ l₁).trans (h.trans (sortOrd_perm _ l₂).symm))
    (sortOrd_sorted_ltQ l₁) (sortOrd_sorted_ltQ l₂)

theorem filterMap_length_mono {α β : Type} (f g : α → Option β)
    (h : ∀ x, (f x).isSome → (g x).isSome) :
    ∀ l : List α, (l.filterMap f).length ≤ (l.filterMap g).length := by
  intro l
  induction l with
  | nil => simp
  | cons x l ih =>
    cases hf : f x with
    | none =>
      rw [List.filterMap_cons, hf]
      cases hg : g x with
      | none => rw [List.filterMap_cons, hg]; exact ih
      | some c =>
        rw [List.filterMap_cons, hg]
        exact le_trans ih (Nat.le_succ _)
    | some b =>
      have hns := h x (by simp [hf])
      cases hg : g x with
      | none => rw [hg] at hns; simp at hns
      | some c =>
        rw [List.filterMap_cons, hf, List.filterMap_cons, hg]
        exact Nat.succ_le_succ ih

/-!
Claim theorems.
-/

/-- C2 counterexample: with trend BAJISTA_FUERTE and NORMAL volatility the
code's long multiplier is 0.4, not the mirrored 0.3 the claim states. -/
theorem c2_counterexample :
    BTCFilter.calculate_multipliers MarketStructure.Trend.BAJISTA_FUERTE
        BTCFilter.Volatility.NORMAL = (2 / 5, 6 / 5) ∧
      ((2 : ℚ) / 5 ≠ 3 / 10) := by
  with_unfolding_all decide

/-- C2: full multiplier table of `BTCFilter._calculate_multipliers` as the
code computes it.  NORMAL keeps the base values (ALCISTA_FUERTE 1.2/0.3,
ALCISTA 1.0/0.4, BAJISTA_FUERTE 0.4/1.2, BAJISTA 0.5/1.0, LATERAL
0.7/0.7, INESTABLE 0.2/0.2 — the BAJISTA long side is NOT the mirror of
the ALCISTA cases); ALTA volatility scales by 0.5 with floor 0.2 and BAJA
scales by 1.1 with cap 1.2. -/
theorem c2_multiplier_table :
    (BTCFilter.calculate_multipliers MarketStructure.Trend.ALCISTA_FUERTE
        BTCFilter.Volatility.NORMAL = (6 / 5, 3 / 10) ∧
      BTCFilter.calculate_multipliers MarketStructure.Trend.ALCISTA
        BTCFilter.Volatility.NORMAL = (1, 2 / 5) ∧
      BTCFilter.calculate_multipliers MarketStructure.Trend.BAJISTA_FUERTE
        BTCFilter.Volatility.NORMAL = (2 / 5, 6 / 5) ∧
      BTCFilter.calculate_multipliers MarketStructure.Trend.BAJISTA
        BTCFilter.Volatility.NORMAL = (1 / 2, 1) ∧
      BTCFilter.calculate_multipliers MarketStructure.Trend.LATERAL
        BTCFilter.Volatility.NORMAL = (7 / 10, 7 / 10) ∧
      BTCFilter.calculate_multipliers MarketStructure.Trend.INESTABLE
        BTCFilter.Volatility.NORMAL = (1 / 5, 1 / 5)) ∧
    (BTCFilter.calculate_multipliers MarketStructure.Trend.ALCISTA_FUERTE
        BTCFilter.Volatility.ALTA = (3 / 5, 1 / 5) ∧
      BTCFilter.calculate_multipliers MarketStructure.Trend.ALCISTA
        BTCFilter.Volatility.ALTA = (1 / 2, 1 / 5) ∧
      BTCFilter.calculate_multipliers MarketStructure.Trend.BAJISTA_FUERTE
        BTCFilter.Volatility.ALTA = (1 / 5, 3 / 5) ∧
      BTCFilter.calculate_multipliers MarketStructure.Trend.BAJISTA
        BTCFilter.Volatility.ALTA = (1 / 4, 1 / 2) ∧
      BTCFilter.calculate_multipliers MarketStructure.Trend.LATERAL
        BTCFilter.Volatility.ALTA = (7 / 20, 7 / 20) ∧
      BTCFilter.calculate_multipliers MarketStructure.Trend.INESTABLE
        BTCFilter.Volatility.ALTA = (1 / 5, 1 / 5)) ∧
    (BTCFilter.calculate_multipliers MarketStructure.Trend.ALCISTA_FUERTE
        BTCFilter.Volatility.BAJA = (6 / 5, 33 / 100) ∧
      BTCFilter.calculate_multipliers MarketStructure.Trend.ALCISTA
        BTCFilter.Volatility.BAJA = (11 / 10, 11 / 25) ∧
      BTCFilter.calculate_multipliers MarketStructure.Trend.BAJISTA_FUERTE
        BTCFilter.Volatility.BAJA = (11 / 25, 6 / 5) ∧
      BTCFilter.calculate_multipliers MarketStructure.Trend.BAJISTA
        BTCFilter.Volatility.BAJA = (11 / 20, 11 / 10) ∧
      BTCFilter.calculate_multipliers MarketStructure.Trend.LATERAL
        BTCFilter.Volatility.BAJA = (77 / 100, 77 / 100) ∧
      BTCFilter.calculate_multipliers MarketStructure.Trend.INESTABLE
        BTCFilter.Volatility.BAJA = (11 / 50, 11 / 50)) := by
  with_unfolding_all decide

/-- C7: for a fixed price and level map, the confluence count of
`ConfluenceDetector.detect_confluences` is monotone in the tolerance. -/
theorem c7_confluence_count_monotone (price : ℚ)
    (levels : List (ConfluenceNS.LevelName × Option ℚ)) (t₁ t₂ : ℚ)
    (h : t₁ ≤ t₂) :
    (ConfluenceNS.detect_confluences price levels t₁).count ≤
      (ConfluenceNS.detect_confluences price levels t₂).count := by
  unfold ConfluenceNS.detect_confluences
  by_cases hp : price ≤ 0
  · simp [hp]
  · simp only [hp, if_false]
    refine filterMap_length_mono _ _ ?_ levels
    intro x hx
    obtain ⟨nm, xv⟩ := x
    cases xv with
    | none => simp at hx
    | some l =>
      dsimp only at hx ⊢
      by_cases hc : l > 0 ∧ |price - l| / price ≤ max 0 t₁
      · rw [if_pos ⟨hc.1, hc.2.trans (max_le_max le_rfl h)⟩]
        simp
      · rw [if_neg hc] at hx
        simp at hx

/-- C7 witness: tolerance 0 versus 0.01 at price 100 with one level. -/
theorem c7_witness :
    (ConfluenceNS.detect_confluences 100
        [(ConfluenceNS.LevelName.vwap, some 100)] 0).count ≤
      (ConfluenceNS.detect_confluences 100
        [(ConfluenceNS.LevelName.vwap, some 100)] (1 / 100)).count :=
  c7_confluence_count_monotone 100 _ 0 (1 / 100) (by norm_num)

set_option maxRecDepth 10000 in
/-- C9 counterexample: the bare greedy pass (`clusterInsert` folded over
the presentation order) is order-sensitive on these three swing prices,
but `_cluster_levels` itself sorts the prices first, so the two
presentation orders produce identical zones — the claimed
order-sensitivity of the clustering step does not exist. -/
theorem c9_counterexample :
    (([(1004 : ℚ) / 10, 1008 / 10, 100].foldl
        (fun acc v => MarketStructure.clusterInsert (1 / 200) v acc) []) ≠
      ([(100 : ℚ), 1004 / 10, 1008 / 10].foldl
        (fun acc v => MarketStructure.clusterInsert (1 / 200) v acc) [])) ∧
    MarketStructure.cluster_levels [1004 / 10, 1008 / 10, 100] (1 / 200) =
      MarketStructure.cluster_levels [100, 1004 / 10, 1008 / 10] (1 / 200) := by
  with_unfolding_all decide

/-- C9: `MarketStructure._cluster_levels` is invariant under permutation
of the presented swing prices, because it sorts them ascending before
the greedy pass. -/
theorem c9_cluster_perm_invariant (p₁ p₂ : List ℚ) (tol : ℚ)
    (h : p₁.Perm p₂) :
    MarketStructure.cluster_levels p₁ tol = MarketStructure.cluster_levels p₂ tol := by
  unfold MarketStructure.cluster_levels
  rw [sortOrd_ltQ_eq_of_perm h]

/-- C9 witness: a two-element swap clusters identically. -/
theorem c9_witness :
    MarketStructure.cluster_levels [1004 / 10, 100] (1 / 200) =
      MarketStructure.cluster_levels [100, 1004 / 10] (1 / 200) :=
  c9_cluster_perm_invariant _ _ _ (List.Perm.swap 100 (1004 / 10) [])

theorem mem_zipWith {α β γ : Type} {f : α → β → γ} :
    ∀ {as : List α} {bs : List β} {z : γ}, z ∈ List.zipWith f as bs →
      ∃ a b, z = f a b := by
  intro as
  induction as with
  | nil => intro bs z h; simp at h
  | cons a as ih =>
    intro bs z h
    cases bs with
    | nil => simp at h
    | cons b bs =>
      rcases List.mem_cons.mp h with rfl | h
      · exact ⟨a, b, rfl⟩
      · exact ih h

theorem clipQ_nonneg (x : ℚ) : 0 ≤ clipQ 0 100 x :=
  le_min (by norm_num) (le_max_left 0 x)

theorem clipQ_le (x : ℚ) : clipQ 0 100 x ≤ 100 := min_le_left 100 _

/-- C8: values of `TechnicalIndicators.calculate_rsi` (for any period the
parameter check accepts) are within [0, 100]; at any position where the
Wilder-smoothed average loss is 0 the output is 100 if the average gain
is positive, and 50 if the average gain is 0 too. -/
theorem c8_rsi_range (closes : List ℚ) (p : ℕ) (out : List (Option ℚ))
    (h : TechnicalIndicators.calculate_rsi closes p = some out) :
    (∀ o ∈ out, ∀ x : ℚ, o = some x → 0 ≤ x ∧ x ≤ 100) ∧
      (∀ i g l, (TechnicalIndicators.avgGains closes p).get? i = some g →
        (TechnicalIndicators.avgLosses closes p).get? i = some l →
        (l = 0 → 0 < g → out.get? (i + 1) = some (some 100)) ∧
          (l = 0 → g = 0 → out.get? (i + 1) = some (some 50))) := by
  have hp : p ≠ 0 := by
    intro h0
    rw [TechnicalIndicators.calculate_rsi.eq_def, if_pos h0] at h
    exact Option.noConfusion h
  rw [TechnicalIndicators.calculate_rsi.eq_def, if_neg hp] at h
  have hout := (Option.some.inj h).symm
  constructor
  · intro o ho x hx
    subst hout
    cases closes with
    | nil => simp at ho
    | cons c rest =>
      rcases List.mem_cons.mp ho with rfl | ho
      · exact Option.noConfusion hx
      · obtain ⟨g, l, rfl⟩ := mem_zipWith ho
        have hx' := Option.some.inj hx
        subst hx'
        exact ⟨clipQ_nonneg _, clipQ_le _⟩
  · intro i g l hg hl
    subst hout
    cases closes with
    | nil =>
      rw [TechnicalIndicators.avgGains] at hg
      simp [ewm] at hg
    | cons c rest =>
      have hz : ∀ v : ℚ,
          (List.zipWith (fun g l => some (TechnicalIndicators.rsiPoint g l))
              (TechnicalIndicators.avgGains (c :: rest) p)
              (TechnicalIndicators.avgLosses (c :: rest) p)).get? i =
              some (some v) ↔
            ∃ a b, (TechnicalIndicators.avgGains (c :: rest) p).get? i = some a ∧
              (TechnicalIndicators.avgLosses (c :: rest) p).get? i = some b ∧
                TechnicalIndicators.rsiPoint a b = v := by
        intro v
        rw [List.get?_zipWith_eq_some]
        constructor
        · rintro ⟨a, b, ha, hb, hv⟩
          exact ⟨a, b, ha, hb, Option.some.inj hv⟩
        · rintro ⟨a, b, ha, hb, hv⟩
          exact ⟨a, b, ha, hb, by rw [hv]⟩
      constructor
      · intro hl0 hgpos
        show (List.get? (_ :: _) (i + 1)) = _
        rw [List.get?_cons_succ]
        rw [hz 100]
        refine ⟨g, l, hg, hl, ?_⟩
        subst hl0
        rw [TechnicalIndicators.rsiPoint, if_pos rfl, if_neg (ne_of_gt hgpos)]
        simp [clipQ]
      · intro hl0 hg0
        show (List.get? (_ :: _) (i + 1)) = _
        rw [List.get?_cons_succ]
        rw [hz 50]
        refine ⟨g, l, hg, hl, ?_⟩
        subst hl0
        subst hg0
        rw [TechnicalIndicators.rsiPoint, if_pos rfl, if_pos rfl]
        norm_num [clipQ]

/-- C8 witness: for closes 1, 2, 3 and period 14 the average loss is 0
and the average gain is 1 at position 0, and the RSI value at position 1
is 100. -/
theorem c8_witness :
    ([none, some (100 : ℚ), some 100] : List (Option ℚ)).get? (0 + 1) =
      some (some 100) :=
  ((c8_rsi_range [1, 2, 3] 14 [none, some 100, some 100]
        (by with_unfolding_all decide)).2 0 1 0
      (by with_unfolding_all decide) (by with_unfolding_all decide)).1
    (by norm_num) (by norm_num)

theorem long_structure_valid_unpack {df1 : List IRow} {ms : MarketData}
    (h : SignalDetector.long_structure_valid df1 ms = true) :
    (∃ lvl d, SignalDetector.find_closest_level (lastClose df1) ms.supports =
        some (lvl, d) ∧ d ≤ 1 / 100) ∧
      ms.trend.trend.hasAlcista = true ∧
        ms.trend.structure_kind = MarketStructure.StructureKind.HHHL ∧
          ∃ w, ((df1.map IRow.vwap).getLast?).getD none = some w ∧
            lastClose df1 ≥ w * (995 / 1000) := by
  rw [SignalDetector.long_structure_valid] at h
  simp only [Bool.and_eq_true] at h
  obtain ⟨⟨⟨h1, h2⟩, h3⟩, h4⟩ := h
  refine ⟨?_, h2, by simpa using h3, ?_⟩
  · cases hc : SignalDetector.find_closest_level (lastClose df1) ms.supports with
    | none => rw [hc] at h1; exact absurd h1 (by simp)
    | some pair =>
      obtain ⟨lvl, d⟩ := pair
      rw [hc] at h1
      exact ⟨lvl, d, rfl, of_decide_eq_true h1⟩
  · cases hw : ((df1.map IRow.vwap).getLast?).getD none with
    | none => rw [hw] at h4; exact absurd h4 (by simp)
    | some w =>
      rw [hw] at h4
      exact ⟨w, rfl, of_decide_eq_true h4⟩

theorem short_structure_valid_unpack {df1 : List IRow} {ms : MarketData}
    (h : SignalDetector.short_structure_valid df1 ms = true) :
    (∃ lvl d, SignalDetector.find_closest_level (lastClose df1) ms.resistances =
        some (lvl, d) ∧ d ≤ 1 / 100) ∧
      ms.trend.trend.hasBajista = true ∧
        ms.trend.structure_kind = MarketStructure.StructureKind.LHLL ∧
          ∃ w, ((df1.map IRow.vwap).getLast?).getD none = some w ∧
            lastClose df1 ≤ w * (1005 / 1000) := by
  rw [SignalDetector.short_structure_valid] at h
  simp only [Bool.and_eq_true] at h
  obtain ⟨⟨⟨h1, h2⟩, h3⟩, h4⟩ := h
  refine ⟨?_, h2, by simpa using h3, ?_⟩
  · cases hc : SignalDetector.find_closest_level (lastClose df1) ms.resistances with
    | none => rw [hc] at h1; exact absurd h1 (by simp)
    | some pair =>
      obtain ⟨lvl, d⟩ := pair
      rw [hc] at h1
      exact ⟨lvl, d, rfl, of_decide_eq_true h1⟩
  · cases hw : ((df1.map IRow.vwap).getLast?).getD none with
    | none => rw [hw] at h4; exact absurd h4 (by simp)
    | some w =>
      rw [hw] at h4
      exact ⟨w, rfl, of_decide_eq_true h4⟩

/-- C5 (amended): a candidate setup is produced only if the structure
gate holds, where the gate is the code's: closest support (resp.
resistance) within 1 % relative distance of the level, trend label
containing ALCISTA (resp. BAJISTA), structure HH/HL (resp. LH/LL), and
the last close at least 0.995 × VWAP for LONG (at most 1.005 × VWAP for
SHORT) — a one-sided band, not "within 0.5 % of VWAP on the correct
side"; any failed condition yields None. -/
theorem c5_structure_gate_necessary (df4 df1 : List IRow)
    (cvd4 cvd1 : List (Option ℚ)) (ms : MarketData) :
    (∀ s, SignalDetector.detect_long_setup df4 df1 cvd4 cvd1 ms = some s →
      s.direction = Dir.LONG ∧ s.structure_valid = true ∧
        (∃ lvl d, SignalDetector.find_closest_level (lastClose df1) ms.supports =
            some (lvl, d) ∧ d ≤ 1 / 100) ∧
          ms.trend.trend.hasAlcista = true ∧
            ms.trend.structure_kind = MarketStructure.StructureKind.HHHL ∧
              ∃ w, ((df1.map IRow.vwap).getLast?).getD none = some w ∧
                lastClose df1 ≥ w * (995 / 1000)) ∧
    ∀ s, SignalDetector.detect_short_setup df4 df1 cvd4 cvd1 ms = some s →
      s.direction = Dir.SHORT ∧ s.structure_valid = true ∧
        (∃ lvl d, SignalDetector.find_closest_level (lastClose df1) ms.resistances =
            some (lvl, d) ∧ d ≤ 1 / 100) ∧
          ms.trend.trend.hasBajista = true ∧
            ms.trend.structure_kind = MarketStructure.StructureKind.LHLL ∧
              ∃ w, ((df1.map IRow.vwap).getLast?).getD none = some w ∧
                lastClose df1 ≤ w * (1005 / 1000) := by
  constructor
  · intro s hs
    unfold SignalDetector.detect_long_setup at hs
    split at hs
    · exact Option.noConfusion hs
    · split at hs
      · exact Option.noConfusion hs
      · next hvalid =>
        dsimp only at hs
        split at hs
        · exact Option.noConfusion hs
        · have hrec := (Option.some.inj hs).symm
          have hv : SignalDetector.long_structure_valid df1 ms = true := by
            cases hb : SignalDetector.long_structure_valid df1 ms with
            | true => rfl
            | false => exact absurd (by simp [hb]) hvalid
          refine ⟨by rw [hrec], by rw [hrec], long_structure_valid_unpack hv⟩
  · intro s hs
    unfold SignalDetector.detect_short_setup at hs
    split at hs
    · exact Option.noConfusion hs
    · split at hs
      · exact Option.noConfusion hs
      · next hvalid =>
        dsimp only at hs
        split at hs
        · exact Option.noConfusion hs
        · have hrec := (Option.some.inj hs).symm
          have hv : SignalDetector.short_structure_valid df1 ms = true := by
            cases hb : SignalDetector.short_structure_valid df1 ms with
            | true => rfl
            | false => exact absurd (by simp [hb]) hvalid
          refine ⟨by rw [hrec], by rw [hrec], short_structure_valid_unpack hv⟩

set_option maxRecDepth 10000 in
/-- C5 counterexample: the demo scenario yields a LONG candidate although
the last close (100.5) is 1.5 % above the 1h VWAP (99), i.e. NOT within
0.5 % of the VWAP — the code's gate only bounds the price from below
(price ≥ 0.995 × VWAP). -/
theorem c5_counterexample :
    (SignalDetector.detect_long_setup demoDf4 demoDf1 [] demoCvd1 demoMs).isSome =
        true ∧
      ((demoDf1.map IRow.vwap).getLast?).getD none = some 99 ∧
        lastClose demoDf1 = 201 / 2 ∧ ¬((201 : ℚ) / 2 ≤ 99 * (1005 / 1000)) := by
  with_unfolding_all decide

set_option maxRecDepth 10000 in
/-- C3: the order_flow base component is 0 for every setup the detector
produces, because `SignalScorer._order_flow_score` reads the
`orderflow_score` key, which `SignalDetector` never writes; in the demo
scenario the detector's accumulated order-flow score is 20 (≥ 15 by the
order-flow gate), yet the scored component is 0. -/
theorem c3_orderflow_component_zero :
    ((SignalDetector.detect_long_setup demoDf4 demoDf1 [] demoCvd1 demoMs).map
          SignalScorer.order_flow_score = some 0 ∧
        (OrderFlow.analyze_volume_pressure demoDf1 demoCvd1 4).score = 20) ∧
      (∀ df4 df1 cvd4 cvd1 ms s,
        SignalDetector.detect_long_setup df4 df1 cvd4 cvd1 ms = some s →
          SignalScorer.order_flow_score s = 0) ∧
      ∀ df4 df1 cvd4 cvd1 ms s,
        SignalDetector.detect_short_setup df4 df1 cvd4 cvd1 ms = some s →
          SignalScorer.order_flow_score s = 0 := by
  refine ⟨by with_unfolding_all decide, ?_, ?_⟩
  · intro df4 df1 cvd4 cvd1 ms s hs
    unfold SignalDetector.detect_long_setup at hs
    split at hs
    · exact Option.noConfusion hs
    · split at hs
      · exact Option.noConfusion hs
      · dsimp only at hs
        split at hs
        · exact Option.noConfusion hs
        · have hrec := (Option.some.inj hs).symm
          rw [hrec]
          simp [SignalScorer.order_flow_score, SignalScorer.to_float]
  · intro df4 df1 cvd4 cvd1 ms s hs
    unfold SignalDetector.detect_short_setup at hs
    split at hs
    · exact Option.noConfusion hs
    · split at hs
      · exact Option.noConfusion hs
      · dsimp only at hs
        split at hs
        · exact Option.noConfusion hs
        · have hrec := (Option.some.inj hs).symm
          rw [hrec]
          simp [SignalScorer.order_flow_score, SignalScorer.to_float]

theorem risk_chain_long (price E : ℚ) (hp : 0 < price) (hE : E < price) :
    E < price ∧
      price + max (price - E) (price * (5 / 1000)) * 2 =
        price + max (price - E) (price * (5 / 1000)) * 2 ∧
      price + max (price - E) (price * (5 / 1000)) * 3 =
        price + max (price - E) (price * (5 / 1000)) * 3 ∧
      price + max (price - E) (price * (5 / 1000)) * 4 =
        price + max (price - E) (price * (5 / 1000)) * 4 ∧
      price < price + max (price - E) (price * (5 / 1000)) * 2 ∧
      price + max (price - E) (price * (5 / 1000)) * 2 <
        price + max (price - E) (price * (5 / 1000)) * 3 ∧
      price + max (price - E) (price * (5 / 1000)) * 3 <
        price + max (price - E) (price * (5 / 1000)) * 4 := by
  have h0 : 0 < max (price - E) (price * (5 / 1000)) :=
    lt_of_lt_of_le (by positivity) (le_max_right _ _)
  set r := max (price - E) (price * (5 / 1000))
  exact ⟨hE, rfl, rfl, rfl, by linarith, by linarith, by linarith⟩

theorem risk_chain_short (price E : ℚ) (hp : 0 < price) (hE : price < E) :
    price < E ∧
      price - max (E - price) (price * (5 / 1000)) * 2 =
        price - max (E - price) (price * (5 / 1000)) * 2 ∧
      price - max (E - price) (price * (5 / 1000)) * 3 =
        price - max (E - price) (price * (5 / 1000)) * 3 ∧
      price - max (E - price) (price * (5 / 1000)) * 4 =
        price - max (E - price) (price * (5 / 1000)) * 4 ∧
      price - max (E - price) (price * (5 / 1000)) * 2 < price ∧
      price - max (E - price) (price * (5 / 1000)) * 3 <
        price - max (E - price) (price * (5 / 1000)) * 2 ∧
      price - max (E - price) (price * (5 / 1000)) * 4 <
        price - max (E - price) (price * (5 / 1000)) * 3 := by
  have h0 : 0 < max (E - price) (price * (5 / 1000)) :=
    lt_of_lt_of_le (by positivity) (le_max_right _ _)
  set r := max (E - price) (price * (5 / 1000))
  exact ⟨hE, rfl, rfl, rfl, by linarith, by linarith, by linarith⟩

theorem long_stop_targets_spec (price : ℚ) (sl atrv : Option ℚ) (mult : ℚ)
    (hp : 0 < price) :
    (SignalEngine.long_stop_targets price sl atrv mult).1 < price ∧
      (SignalEngine.long_stop_targets price sl atrv mult).2.1 =
        price + max (price - (SignalEngine.long_stop_targets price sl atrv mult).1)
          (price * (5 / 1000)) * 2 ∧
      (SignalEngine.long_stop_targets price sl atrv mult).2.2.1 =
        price + max (price - (SignalEngine.long_stop_targets price sl atrv mult).1)
          (price * (5 / 1000)) * 3 ∧
      (SignalEngine.long_stop_targets price sl atrv mult).2.2.2 =
        price + max (price - (SignalEngine.long_stop_targets price sl atrv mult).1)
          (price * (5 / 1000)) * 4 ∧
      price < (SignalEngine.long_stop_targets price sl atrv mult).2.1 ∧
      (SignalEngine.long_stop_targets price sl atrv mult).2.1 <
        (SignalEngine.long_stop_targets price sl atrv mult).2.2.1 ∧
      (SignalEngine.long_stop_targets price sl atrv mult).2.2.1 <
        (SignalEngine.long_stop_targets price sl atrv mult).2.2.2 := by
  unfold SignalEngine.long_stop_targets
  dsimp only
  split
  · exact risk_chain_long _ _ hp
      (sub_lt_self _ (lt_of_lt_of_le (by positivity) (le_max_left _ _)))
  · next hge => exact risk_chain_long _ _ hp (lt_of_not_le hge)

theorem short_stop_targets_spec (price : ℚ) (rl atrv : Option ℚ) (mult : ℚ)
    (hp : 0 < price) :
    price < (SignalEngine.short_stop_targets price rl atrv mult).1 ∧
      (SignalEngine.short_stop_targets price rl atrv mult).2.1 =
        price - max ((SignalEngine.short_stop_targets price rl atrv mult).1 - price)
          (price * (5 / 1000)) * 2 ∧
      (SignalEngine.short_stop_targets price rl atrv mult).2.2.1 =
        price - max ((SignalEngine.short_stop_targets price rl atrv mult).1 - price)
          (price * (5 / 1000)) * 3 ∧
      (SignalEngine.short_stop_targets price rl atrv mult).2.2.2 =
        price - max ((SignalEngine.short_stop_targets price rl atrv mult).1 - price)
          (price * (5 / 1000)) * 4 ∧
      (SignalEngine.short_stop_targets price rl atrv mult).2.1 < price ∧
      (SignalEngine.short_stop_targets price rl atrv mult).2.2.1 <
        (SignalEngine.short_stop_targets price rl atrv mult).2.1 ∧
      (SignalEngine.short_stop_targets price rl atrv mult).2.2.2 <
        (SignalEngine.short_stop_targets price rl atrv mult).2.2.1 := by
  unfold SignalEngine.short_stop_targets
  dsimp only
  split
  · exact risk_chain_short _ _ hp
      (lt_add_of_pos_right _ (lt_of_lt_of_le (by positivity) (le_max_left _ _)))
  · next hle => exact risk_chain_short _ _ hp (lt_of_not_le hle)

/-- C4 (amended): every signal built by `SignalEngine._create_signal` has
entry = last close; the stop-loss (the raw `level ∓ ATR × multiplier`
stop, corrected onto the correct side of entry whenever the raw stop
crosses it) always lies strictly on the correct side of entry — though
not necessarily at 0.5 % of entry — and the three take-profits lie at
exactly 2×, 3×, 4× the effective risk distance
`max |entry − stop| (0.005 × entry)` beyond entry, hence the strict
ordering chain holds whenever the entry price is positive. -/
theorem c4_risk_management (sym : Sym) (setup : Setup)
    (sr : SignalScorer.ScoreResult) (btc : BTCFilter.BTCContext)
    (df1 : List IRow) (kl : KL) (conf : SignalScorer.ConfluenceOut) (now : ℤ)
    (sig : Signal)
    (h : SignalEngine.create_signal sym setup sr btc df1 kl conf now = some sig)
    (hp : 0 < lastClose df1) :
    sig.entry_price = lastClose df1 ∧
      (setup.direction = Dir.LONG →
        sig.stop_loss < sig.entry_price ∧
          sig.take_profit_1 = sig.entry_price +
            max (sig.entry_price - sig.stop_loss) (sig.entry_price * (5 / 1000)) * 2 ∧
          sig.take_profit_2 = sig.entry_price +
            max (sig.entry_price - sig.stop_loss) (sig.entry_price * (5 / 1000)) * 3 ∧
          sig.take_profit_3 = sig.entry_price +
            max (sig.entry_price - sig.stop_loss) (sig.entry_price * (5 / 1000)) * 4 ∧
          sig.entry_price < sig.take_profit_1 ∧
          sig.take_profit_1 < sig.take_profit_2 ∧
          sig.take_profit_2 < sig.take_profit_3) ∧
      (setup.direction = Dir.SHORT →
        sig.entry_price < sig.stop_loss ∧
          sig.take_profit_1 = sig.entry_price -
            max (sig.stop_loss - sig.entry_price) (sig.entry_price * (5 / 1000)) * 2 ∧
          sig.take_profit_2 = sig.entry_price -
            max (sig.stop_loss - sig.entry_price) (sig.entry_price * (5 / 1000)) * 3 ∧
          sig.take_profit_3 = sig.entry_price -
            max (sig.stop_loss - sig.entry_price) (sig.entry_price * (5 / 1000)) * 4 ∧
          sig.take_profit_1 < sig.entry_price ∧
          sig.take_profit_2 < sig.take_profit_1 ∧
          sig.take_profit_3 < sig.take_profit_2) := by
  unfold SignalEngine.create_signal at h
  split at h
  · exact Option.noConfusion h
  · have e := (Option.some.inj h).symm
    subst e
    by_cases hdir : setup.direction = Dir.LONG
    · refine ⟨rfl, fun _ => ?_, fun hS => absurd (hdir.symm.trans hS) (by decide)⟩
      dsimp only
      rw [if_pos hdir]
      exact long_stop_targets_spec (lastClose df1) setup.support_level
        (lastIndicatorQ (df1.map IRow.atr)) _ hp
    · have hdirS : setup.direction = Dir.SHORT := by
        cases hd : setup.direction
        · exact absurd hd hdir
        · rfl
      refine ⟨rfl, fun hL => absurd (hdirS.symm.trans hL) (by decide), fun _ => ?_⟩
      dsimp only
      rw [if_neg hdir]
      exact short_stop_targets_spec (lastClose df1) setup.resistance_level
        (lastIndicatorQ (df1.map IRow.atr)) _ hp

/-- C4 counterexample: support 100, last close 100.1, ATR 0.01,
multiplier 2.5 give a raw stop of 99.975, which stays uncorrected (it is
below entry) at a distance of 0.125 — far less than 0.5 % of the entry
price (0.5005) — refuting the claimed minimum stop distance. -/
theorem c4_counterexample :
    SignalEngine.create_signal (Sym.other 0) c4Setup c4Score c4Btc [c4Row] c4Kl
        c4Score.confluence 0 = some c4Sig ∧
      c4Sig.entry_price = 1001 / 10 ∧ c4Sig.stop_loss = 3999 / 40 ∧
        c4Sig.stop_loss < c4Sig.entry_price ∧
          c4Sig.entry_price - c4Sig.stop_loss < c4Sig.entry_price * (5 / 1000) := by
  have hep : c4Sig.entry_price = 1001 / 10 := by with_unfolding_all rfl
  have hsl : c4Sig.stop_loss = 3999 / 40 := by with_unfolding_all rfl
  refine ⟨rfl, hep, hsl, ?_, ?_⟩
  · rw [hep, hsl]; norm_num
  · rw [hep, hsl]; norm_num

/-- C4 witness: the amended statement holds at the `c4Row` scenario. -/
theorem c4_witness :
    c4Sig.entry_price = lastClose [c4Row] ∧
      (c4Setup.direction = Dir.LONG →
        c4Sig.stop_loss < c4Sig.entry_price ∧
          c4Sig.take_profit_1 = c4Sig.entry_price +
            max (c4Sig.entry_price - c4Sig.stop_loss) (c4Sig.entry_price * (5 / 1000)) * 2 ∧
          c4Sig.take_profit_2 = c4Sig.entry_price +
            max (c4Sig.entry_price - c4Sig.stop_loss) (c4Sig.entry_price * (5 / 1000)) * 3 ∧
          c4Sig.take_profit_3 = c4Sig.entry_price +
            max (c4Sig.entry_price - c4Sig.stop_loss) (c4Sig.entry_price * (5 / 1000)) * 4 ∧
          c4Sig.entry_price < c4Sig.take_profit_1 ∧
          c4Sig.take_profit_1 < c4Sig.take_profit_2 ∧
          c4Sig.take_profit_2 < c4Sig.take_profit_3) ∧
      (c4Setup.direction = Dir.SHORT →
        c4Sig.entry_price < c4Sig.stop_loss ∧
          c4Sig.take_profit_1 = c4Sig.entry_price -
            max (c4Sig.stop_loss - c4Sig.entry_price) (c4Sig.entry_price * (5 / 1000)) * 2 ∧
          c4Sig.take_profit_2 = c4Sig.entry_price -
            max (c4Sig.stop_loss - c4Sig.entry_price) (c4Sig.entry_price * (5 / 1000)) * 3 ∧
          c4Sig.take_profit_3 = c4Sig.entry_price -
            max (c4Sig.stop_loss - c4Sig.entry_price) (c4Sig.entry_price * (5 / 1000)) * 4 ∧
          c4Sig.take_profit_1 < c4Sig.entry_price ∧
          c4Sig.take_profit_2 < c4Sig.take_profit_1 ∧
          c4Sig.take_profit_3 < c4Sig.take_profit_2) :=
  c4_risk_management (Sym.other 0) c4Setup c4Score c4Btc [c4Row] c4Kl
    c4Score.confluence 0 c4Sig rfl (by norm_num : (0:ℚ) < 1001 / 10)

/-- C1: whenever the BTC context computed by `BTCFilter` for the scan's
BTC frames has `should_trade = false`, `scan_for_signals` returns the
empty list, whatever the per-symbol data in the environment. -/
theorem c1_btc_gate (env : Env) (symbolsArg : Option (List Sym))
    (h : (BTCFilter.analyze_btc_context
        (SignalEngine.load_and_prepare_data env Sym.btcusdt TF.h4)
        (SignalEngine.load_and_prepare_data env Sym.btcusdt TF.h1)
        env.nowTs).should_trade = false) :
    SignalEngine.scan_for_signals env symbolsArg = [] := by
  unfold SignalEngine.scan_for_signals
  dsimp only
  split
  · rfl
  · simp [h]

set_option maxRecDepth 10000 in
/-- C1 witness: one flat BTC candle yields LATERAL trend with strength 0,
so the gate is closed and the scan is empty although ETH data exists. -/
theorem c1_witness : SignalEngine.scan_for_signals c1Env none = [] :=
  c1_btc_gate c1Env none (by with_unfolding_all rfl)

theorem mem_filter_by_window {cs : List Candle} {w : ℚ} {c : Candle}
    (h : c ∈ KeyLevels.filter_by_window cs w) : c ∈ cs := by
  unfold KeyLevels.filter_by_window at h
  split at h
  · exact h
  · split at h
    · exact h
    · exact (List.mem_filter.mp h).1

theorem firstMaxVol_cons_ne_none (x : KeyLevels.Bin) (xs : List KeyLevels.Bin) :
    KeyLevels.firstMaxVol (x :: xs) ≠ none := by
  rw [KeyLevels.firstMaxVol]
  cases hxs : KeyLevels.firstMaxVol xs with
  | none => simp
  | some m => dsimp only; split <;> simp

theorem firstMaxVol_mem {l : List KeyLevels.Bin} {m : KeyLevels.Bin}
    (h : KeyLevels.firstMaxVol l = some m) : m ∈ l := by
  induction l with
  | nil => exact Option.noConfusion h
  | cons x xs ih =>
    rw [KeyLevels.firstMaxVol] at h
    cases hxs : KeyLevels.firstMaxVol xs with
    | none =>
      rw [hxs] at h
      dsimp only at h
      injection h with h'
      subst h'
      exact List.mem_cons_self x xs
    | some m' =>
      rw [hxs] at h
      dsimp only at h
      split at h
      · injection h with h'
        subst h'
        exact List.mem_cons_of_mem x (ih hxs)
      · injection h with h'
        subst h'
        exact List.mem_cons_self x xs

/-- The first bucket attaining the maximal volume is the head of the
stable descending volume sort used by `calculate_value_area`. -/
theorem sortOrd_volDesc_head {l : List KeyLevels.Bin} :
    ∀ {m : KeyLevels.Bin}, KeyLevels.firstMaxVol l = some m →
      ∃ t, sortOrd (fun a b : KeyLevels.Bin => decide (b.volume < a.volume)) l = m :: t := by
  induction l with
  | nil => intro m h; exact Option.noConfusion h
  | cons x xs ih =>
    intro m h
    rw [KeyLevels.firstMaxVol] at h
    cases hxs : KeyLevels.firstMaxVol xs with
    | none =>
      rw [hxs] at h
      dsimp only at h
      injection h with h'
      subst h'
      have hnil : xs = [] := by
        cases xs with
        | nil => rfl
        | cons y ys => exact absurd hxs (firstMaxVol_cons_ne_none y ys)
      subst hnil
      exact ⟨[], rfl⟩
    | some m' =>
      rw [hxs] at h
      dsimp only at h
      obtain ⟨t, ht⟩ := ih hxs
      split at h
      next hv =>
        injection h with h'
        subst h'
        refine ⟨insertOrd (fun a b : KeyLevels.Bin => decide (b.volume < a.volume)) x t, ?_⟩
        rw [sortOrd, ht, insertOrd, if_pos]
        simp only [decide_eq_true_eq]
        exact hv
      next hv =>
        injection h with h'
        subst h'
        refine ⟨m' :: t, ?_⟩
        rw [sortOrd, ht, insertOrd, if_neg]
        simp only [decide_eq_true_eq]
        exact hv

theorem takeUntilAcc_head_mem (thr acc : ℚ) (b : KeyLevels.Bin)
    (bs : List KeyLevels.Bin) :
    b ∈ KeyLevels.takeUntilAcc thr acc (b :: bs) := by
  rw [KeyLevels.takeUntilAcc]
  exact List.mem_cons_self b _

theorem mkBinAt_bounds {minP maxP : ℚ} {n : ℤ} (hlt : minP < maxP) (hn : 0 < n)
    (i : ℤ) (v : ℚ) :
    (KeyLevels.mkBinAt minP maxP n i v).lower ≤ (KeyLevels.mkBinAt minP maxP n i v).center ∧
      (KeyLevels.mkBinAt minP maxP n i v).center ≤ (KeyLevels.mkBinAt minP maxP n i v).upper := by
  have hn' : (0 : ℚ) < (n : ℚ) := by exact_mod_cast hn
  have key : (maxP - minP) * (i : ℚ) / (n : ℚ) ≤ (maxP - minP) * ((i : ℚ) + 1) / (n : ℚ) := by
    have h2 : (maxP - minP) * (i : ℚ) ≤ (maxP - minP) * ((i : ℚ) + 1) :=
      mul_le_mul_of_nonneg_left (by linarith) (by linarith)
    exact (div_le_div_iff_of_pos_right hn').mpr h2
  refine ⟨?_, ?_⟩ <;>
  · unfold KeyLevels.mkBinAt KeyLevels.edgeAt
    dsimp only
    push_cast
    linarith

/-- Every bucket of a volume profile built from candles with `low ≤ high`
has its center between its lower and upper edges. -/
theorem profile_bin_bounds {cs : List Candle} {w : ℚ} {bins : ℤ}
    (hwf : ∀ c ∈ cs, c.low ≤ c.high) :
    ∀ b ∈ KeyLevels.build_volume_profile cs w bins,
      b.lower ≤ b.center ∧ b.center ≤ b.upper := by
  intro b hb
  unfold KeyLevels.build_volume_profile at hb
  split at hb
  · simp at hb
  · dsimp only at hb
    split at hb
    next h2 => simp at hb
    next h2 =>
      obtain ⟨c0, rest, hfe⟩ := List.exists_cons_of_ne_nil h2
      have hc0f : c0 ∈ KeyLevels.filter_by_window cs w := by
        rw [hfe]; exact List.mem_cons_self c0 rest
      have hlh : c0.low ≤ c0.high := hwf c0 (mem_filter_by_window hc0f)
      have hminmax : (seriesMin ((KeyLevels.filter_by_window cs w).map Candle.low)).getD 0
          ≤ (seriesMax ((KeyLevels.filter_by_window cs w).map Candle.high)).getD 0 := by
        rw [hfe]
        simp only [List.map_cons, seriesMin, seriesMax, Option.getD_some]
        exact le_trans (foldl_min_le_acc _ _) (le_trans hlh (acc_le_foldl_max _ _))
      split at hb
      next hcl =>
        rw [List.mem_singleton] at hb
        subst hb
        exact ⟨by dsimp only; linarith, by dsimp only; linarith⟩
      next hni =>
        have hstrict : (seriesMin ((KeyLevels.filter_by_window cs w).map Candle.low)).getD 0
            < (seriesMax ((KeyLevels.filter_by_window cs w).map Candle.high)).getD 0 := by
          rcases lt_or_eq_of_le hminmax with hlt | heq
          · exact hlt
          · exfalso
            apply hni
            rw [heq]
            simp only [iscloseQ, sub_self, abs_zero, decide_eq_true_eq]
            positivity
        have hb' := mem_of_mem_sortOrd hb
        rw [List.mem_map] at hb'
        obtain ⟨p, hpmem, hp⟩ := hb'
        subst hp
        exact mkBinAt_bounds hstrict (lt_of_lt_of_le zero_lt_one (le_max_left 1 bins)) p.1 p.2

/-- C6 (amended): on any candle list whose candles all satisfy
`low ≤ high`, whenever `calculate_poc` returns a price and
`calculate_value_area` returns both boundaries, the value-area invariant
`val ≤ poc ≤ vah` holds; without the `low ≤ high` hypothesis the
invariant fails (see the counterexample). -/
theorem c6_value_area_poc (cs : List Candle) (w : ℚ) (bins : ℤ) (cov : ℚ)
    (poc vah val : ℚ)
    (hwf : ∀ c ∈ cs, c.low ≤ c.high)
    (hpoc : KeyLevels.calculate_poc cs w bins = some poc)
    (hva : KeyLevels.calculate_value_area cs w bins cov = some (some vah, some val)) :
    val ≤ poc ∧ poc ≤ vah := by
  unfold KeyLevels.calculate_poc at hpoc
  cases hm : KeyLevels.firstMaxVol (KeyLevels.build_volume_profile cs w bins) with
  | none => rw [hm] at hpoc; exact Option.noConfusion hpoc
  | some m =>
    rw [hm] at hpoc
    dsimp only at hpoc
    injection hpoc with hpm
    unfold KeyLevels.calculate_value_area at hva
    split at hva
    · exact Option.noConfusion hva
    · dsimp only at hva
      split at hva
      · simp at hva
      · split at hva
        · simp at hva
        · split at hva
          · simp at hva
          · have hpair := Option.some.inj hva
            rw [Prod.mk.injEq] at hpair
            obtain ⟨hvah, hval⟩ := hpair
            obtain ⟨t, ht⟩ := sortOrd_volDesc_head hm
            rw [ht] at hvah hval
            have hmem := takeUntilAcc_head_mem
              (((KeyLevels.build_volume_profile cs w bins).map KeyLevels.Bin.volume).sum * cov)
              0 m t
            have h1 : val ≤ m.lower := seriesMin_le hval (List.mem_map_of_mem _ hmem)
            have h2 : m.upper ≤ vah := le_seriesMax hvah (List.mem_map_of_mem _ hmem)
            have hbnd := profile_bin_bounds hwf m (firstMaxVol_mem hm)
            rw [← hpm]
            exact ⟨le_trans h1 hbnd.1, le_trans hbnd.2 h2⟩

/-- C6 counterexample: a single malformed candle with `low = 10 > 5 = high`
(nothing in the code rejects it) makes the `linspace` edge grid decrease,
and the computed prices violate the claimed invariant: `poc = 57/8`,
`vah = 7`, `val = 29/4`, so `val ≤ poc` fails. -/
theorem c6_counterexample :
    KeyLevels.calculate_poc [c6Bad] 604800 20 = some (57 / 8) ∧
      KeyLevels.calculate_value_area [c6Bad] 604800 20 (7 / 10) =
        some (some 7, some (29 / 4)) ∧
      ¬((29 : ℚ) / 4 ≤ 57 / 8) := by
  refine ⟨?_, ?_, by norm_num⟩
  · with_unfolding_all rfl
  · with_unfolding_all rfl

/-- C6 witness: two well-formed candles give `poc = 4039/40`,
`vah = 1021/10`, `val = 1009/10`, and the amended invariant holds. -/
theorem c6_witness : (1009 : ℚ) / 10 ≤ 4039 / 40 ∧ (4039 : ℚ) / 40 ≤ 1021 / 10 :=
  c6_value_area_poc [c6A, c6B] 604800 20 (7 / 10) (4039 / 40) (1021 / 10) (1009 / 10)
    (by decide) (by with_unfolding_all rfl) (by with_unfolding_all rfl)

namespace HeapModel

/-- Reading back a freshly stored key-levels structure yields the stored
value. -/
theorem readKL_storeKL (st : HState) (v : KL) :
    readKL (storeKL st v).2 (storeKL st v).1 = some v := by
  unfold storeKL alloc readKL
  dsimp only
  rw [if_pos rfl]
  dsimp only
  rw [if_neg (Nat.ne_of_lt (Nat.lt_succ_self st.next)), if_pos rfl]

theorem storeKL_heap_lt (st : HState) (v : KL) (a : ℕ) (ha : a < st.next) :
    (storeKL st v).2.heap a = st.heap a := by
  unfold storeKL alloc
  dsimp only
  rw [if_neg (Nat.ne_of_lt (lt_trans ha (Nat.lt_succ_self _))),
    if_neg (Nat.ne_of_lt ha)]

theorem sessionsRefOf_storeKL (st : HState) (v : KL) :
    sessionsRefOf (storeKL st v).2 (storeKL st v).1 = some st.next := by
  unfold storeKL alloc sessionsRefOf
  dsimp only
  rw [if_pos rfl]

/-- Storing a fresh structure does not disturb an existing structure that
lives entirely below the allocation frontier. -/
theorem readKL_storeKL_frame (st : HState) (v : KL) {c s : ℕ} {core : KLCore}
    {ss : KeyLevels.Sessions}
    (hc : st.heap c = some (Obj.klObj core s)) (hs : st.heap s = some (Obj.sesObj ss))
    (hcn : c < st.next) (hsn : s < st.next) :
    readKL (storeKL st v).2 c = readKL st c := by
  unfold readKL
  rw [storeKL_heap_lt st v c hcn, hc]
  dsimp only
  rw [storeKL_heap_lt st v s hsn, hs]

/-- Writing anywhere except a structure's two addresses leaves its read
unchanged. -/
theorem readKL_writeHeap_frame (st : HState) (x c : ℕ) (o : Obj)
    (hxc : x ≠ c)
    (hxs : ∀ s, sessionsRefOf st c = some s → x ≠ s) :
    readKL (writeHeap st x o) c = readKL st c := by
  unfold readKL writeHeap
  dsimp only
  rw [if_neg (Ne.symm hxc)]
  cases hc : st.heap c with
  | none => rfl
  | some obj =>
    cases obj with
    | sesObj ss => rfl
    | klObj core s =>
      dsimp only
      have hxs' : x ≠ s := hxs s (by unfold sessionsRefOf; rw [hc])
      rw [if_neg (Ne.symm hxs')]

/-- The common core of both paths of `_get_or_compute_key_levels`: the
result is a fresh deep copy (its two addresses are new), so the cached
copy `c` keeps reading `v` after any mutation of the returned copy, and a
later TTL hit re-reads `v` from the cache. -/
theorem storeKL_master (st₀ : HState) (v : KL) (ts : ℤ) (c : ℕ) (sym : Sym)
    (hcache : st₀.cache sym = some (ts, c))
    (hread : readKL st₀ c = some v)
    (hchain : ∃ core s ss, st₀.heap c = some (Obj.klObj core s) ∧
      st₀.heap s = some (Obj.sesObj ss) ∧ c < st₀.next ∧ s < st₀.next) :
    (storeKL st₀ v).2.cache sym = some (ts, c) ∧
      readKL (storeKL st₀ v).2 (storeKL st₀ v).1 = some v ∧
      readKL (storeKL st₀ v).2 c = some v ∧
      c ≠ (storeKL st₀ v).1 ∧
      ∀ x o, (x = (storeKL st₀ v).1 ∨
          sessionsRefOf (storeKL st₀ v).2 (storeKL st₀ v).1 = some x) →
        readKL (writeHeap (storeKL st₀ v).2 x o) c = some v ∧
        ∀ df2 now2, now2 - ts < 3600 →
          readKL
            (get_or_compute_key_levels_heap (writeHeap (storeKL st₀ v).2 x o) sym df2 now2).2
            (get_or_compute_key_levels_heap (writeHeap (storeKL st₀ v).2 x o) sym df2 now2).1
            = some v := by
  obtain ⟨core, s, ss, hc, hs, hcn, hsn⟩ := hchain
  have hr1 : (storeKL st₀ v).1 = st₀.next + 1 := rfl
  have hcne : c ≠ (storeKL st₀ v).1 := by rw [hr1]; omega
  have hcache' : (storeKL st₀ v).2.cache sym = some (ts, c) := hcache
  have hreadc : readKL (storeKL st₀ v).2 c = some v := by
    rw [readKL_storeKL_frame st₀ v hc hs hcn hsn]; exact hread
  refine ⟨hcache', readKL_storeKL st₀ v, hreadc, hcne, ?_⟩
  intro x o hx
  have hxval : x = st₀.next + 1 ∨ x = st₀.next := by
    rcases hx with h | h
    · left; rw [h] at *; exact hr1 ▸ rfl
    · right
      rw [sessionsRefOf_storeKL] at h
      exact (Option.some.inj h).symm
  have hxc : x ≠ c := by rcases hxval with h | h <;> omega
  have hxs : x ≠ s := by rcases hxval with h | h <;> omega
  have hses : ∀ s', sessionsRefOf (storeKL st₀ v).2 c = some s' → x ≠ s' := by
    intro s' hs'
    unfold sessionsRefOf at hs'
    rw [storeKL_heap_lt st₀ v c hcn, hc] at hs'
    dsimp only at hs'
    injection hs' with he
    subst he
    exact hxs
  have hf : readKL (writeHeap (storeKL st₀ v).2 x o) c = some v := by
    rw [readKL_writeHeap_frame _ x c o hxc hses]; exact hreadc
  refine ⟨hf, ?_⟩
  intro df2 now2 h2
  have hcache2 : (writeHeap (storeKL st₀ v).2 x o).cache sym = some (ts, c) := hcache'
  unfold get_or_compute_key_levels_heap
  dsimp only
  rw [hcache2]
  dsimp only
  rw [if_pos h2, hf]
  dsimp only
  exact readKL_storeKL _ _

/-- The compute path (cache miss, stale entry, or dangling entry): the
fresh value is deep-copied into the cache and an independent deep copy is
returned. -/
theorem compute_path_spec (st : HState) (sym : Sym) (df : List IRow) (now : ℤ)
    (r : ℕ) (st' : HState)
    (hcall : storeKL (setCache (storeKL st (SignalEngine.compute_key_levels df)).2 sym
        (now, (storeKL st (SignalEngine.compute_key_levels df)).1))
        (SignalEngine.compute_key_levels df) = (r, st')) :
    ∃ v ts c, st'.cache sym = some (ts, c) ∧ readKL st' r = some v ∧
      readKL st' c = some v ∧ c ≠ r ∧
      ∀ x o, (x = r ∨ sessionsRefOf st' r = some x) →
        readKL (writeHeap st' x o) c = some v ∧
        ∀ df2 now2, now2 - ts < 3600 →
          readKL (get_or_compute_key_levels_heap (writeHeap st' x o) sym df2 now2).2
            (get_or_compute_key_levels_heap (writeHeap st' x o) sym df2 now2).1 = some v := by
  set kl := SignalEngine.compute_key_levels df with hkl
  have hcacheN : (setCache (storeKL st kl).2 sym (now, (storeKL st kl).1)).cache sym
      = some (now, st.next + 1) := by
    unfold setCache
    dsimp only
    rw [if_pos rfl]
    rfl
  have hreadN : readKL (setCache (storeKL st kl).2 sym (now, (storeKL st kl).1))
      (st.next + 1) = some kl := readKL_storeKL st kl
  have hC : (setCache (storeKL st kl).2 sym (now, (storeKL st kl).1)).heap (st.next + 1)
      = some (Obj.klObj kl.core st.next) := by
    show (storeKL st kl).2.heap (st.next + 1) = _
    unfold storeKL alloc
    dsimp only
    rw [if_pos rfl]
  have hS : (setCache (storeKL st kl).2 sym (now, (storeKL st kl).1)).heap st.next
      = some (Obj.sesObj kl.sessions) := by
    show (storeKL st kl).2.heap st.next = _
    unfold storeKL alloc
    dsimp only
    rw [if_neg (Nat.ne_of_lt (Nat.lt_succ_self st.next)), if_pos rfl]
  have hfacts := storeKL_master
    (setCache (storeKL st kl).2 sym (now, (storeKL st kl).1)) kl now (st.next + 1) sym
    hcacheN hreadN
    ⟨kl.core, st.next, kl.sessions, hC, hS,
      (by show st.next + 1 < st.next + 1 + 1; omega),
      (by show st.next < st.next + 1 + 1; omega)⟩
  rw [hcall] at hfacts
  dsimp only at hfacts
  exact ⟨kl, now, st.next + 1, hfacts⟩

/-- C10: on any well-formed state, `_get_or_compute_key_levels` returns a
reference to a fresh deep copy of the key-levels map: the symbol's cache
entry points at a different structure holding the same value, mutating
the returned structure (either its top-level dict or its nested
`sessions` dict) never changes the cached value, and a later call for the
same symbol within the 1-hour TTL still returns that value. -/
theorem c10_deep_copy (st : HState) (sym : Sym) (df : List IRow) (now : ℤ)
    (r : ℕ) (st' : HState)
    (hwf : wf st)
    (hcall : get_or_compute_key_levels_heap st sym df now = (r, st')) :
    ∃ v ts c, st'.cache sym = some (ts, c) ∧ readKL st' r = some v ∧
      readKL st' c = some v ∧ c ≠ r ∧
      ∀ x o, (x = r ∨ sessionsRefOf st' r = some x) →
        readKL (writeHeap st' x o) c = some v ∧
        ∀ df2 now2, now2 - ts < 3600 →
          readKL (get_or_compute_key_levels_heap (writeHeap st' x o) sym df2 now2).2
            (get_or_compute_key_levels_heap (writeHeap st' x o) sym df2 now2).1 = some v := by
  unfold get_or_compute_key_levels_heap at hcall
  dsimp only at hcall
  cases hcs : st.cache sym with
  | none =>
    rw [hcs] at hcall
    dsimp only at hcall
    exact compute_path_spec st sym df now r st' hcall
  | some e =>
    obtain ⟨ts0, cref⟩ := e
    rw [hcs] at hcall
    dsimp only at hcall
    by_cases htt : now - ts0 < 3600
    · rw [if_pos htt] at hcall
      cases hrd : readKL st cref with
      | none =>
        rw [hrd] at hcall
        dsimp only at hcall
        exact compute_path_spec st sym df now r st' hcall
      | some v0 =>
        rw [hrd] at hcall
        dsimp only at hcall
        have hfacts := storeKL_master st v0 ts0 cref sym hcs hrd (hwf sym ts0 cref hcs)
        rw [hcall] at hfacts
        dsimp only at hfacts
        exact ⟨v0, ts0, cref, hfacts⟩
    · rw [if_neg htt] at hcall
      exact compute_path_spec st sym df now r st' hcall

/-- C10 witness: the cache-model theorem evaluated at the empty state
(the well-formedness hypothesis is vacuous there) and an empty
dataframe. -/
theorem c10_witness :
    ∃ v ts c,
      (get_or_compute_key_levels_heap hState0 Sym.btcusdt [] 0).2.cache Sym.btcusdt
          = some (ts, c) ∧
        readKL (get_or_compute_key_levels_heap hState0 Sym.btcusdt [] 0).2
            (get_or_compute_key_levels_heap hState0 Sym.btcusdt [] 0).1 = some v ∧
        readKL (get_or_compute_key_levels_heap hState0 Sym.btcusdt [] 0).2 c = some v ∧
        c ≠ (get_or_compute_key_levels_heap hState0 Sym.btcusdt [] 0).1 ∧
        ∀ x o,
          (x = (get_or_compute_key_levels_heap hState0 Sym.btcusdt [] 0).1 ∨
            sessionsRefOf (get_or_compute_key_levels_heap hState0 Sym.btcusdt [] 0).2
              (get_or_compute_key_levels_heap hState0 Sym.btcusdt [] 0).1 = some x) →
          readKL
              (writeHeap (get_or_compute_key_levels_heap hState0 Sym.btcusdt [] 0).2 x o)
              c = some v ∧
          ∀ df2 now2, now2 - ts < 3600 →
            readKL
              (get_or_compute_key_levels_heap
                (writeHeap (get_or_compute_key_levels_heap hState0 Sym.btcusdt [] 0).2 x o)
                Sym.btcusdt df2 now2).2
              (get_or_compute_key_levels_heap
                (writeHeap (get_or_compute_key_levels_heap hState0 Sym.btcusdt [] 0).2 x o)
                Sym.btcusdt df2 now2).1 = some v :=
  c10_deep_copy hState0 Sym.btcusdt [] 0
    (get_or_compute_key_levels_heap hState0 Sym.btcusdt [] 0).1
    (get_or_compute_key_levels_heap hState0 Sym.btcusdt [] 0).2
    (fun sym ts c h => Option.noConfusion h) rfl

end HeapModel

end BC4
